import Mathlib

/-!
Verification development for the `commune` keypair manager (`commune/key/key.py`).

The Python source is shallowly embedded: byte strings become `List Nat`
(each entry a byte value), Python `None`-able parameters become `Option`,
Python exceptions become an `Except Err` result, and the external
collaborator packages (`sr25519`, `ed25519_zebra`, `scalecodec`'s ss58
codec, the bip39 backend, the NaCl box, the polkadot-js encrypted-json
codec, eth_keys) are abstracted as a `Backend` record of opaque pure
functions, exactly as the spec treats them (opaque sign/verify/derive
primitives).  Python truthiness of the optional byte/string fields is
modelled explicitly (`None`, `b''` and `''` are falsy).
-/

set_option autoImplicit false

namespace Commune

/-- Byte strings are lists of byte values. -/
abbrev Bytes := List Nat

/-- A Python value that is either `bytes` or `str` (the `Union[bytes, str]`
inputs of the source). -/
inductive BS where
  | bytes (b : Bytes)
  | str (s : String)
deriving DecidableEq, Repr

/-- Python exceptions raised by the key manager, named after the source's
exception classes.  The spec's taxonomy maps onto them: `NoPrivateKey` and
`UnsupportedScheme` surface as `ConfigurationError`, `UnsupportedDerivation`
and `UnsupportedFeature` as `NotImplementedError`, `InvalidKeyLength` /
`InvalidSeedLength` / `MissingKeyMaterial` as `ValueError`. -/
inductive Err where
  | ValueError (msg : String)
  | ConfigurationError (msg : String)
  | NotImplementedError (msg : String)
  | TypeError (msg : String)
  | AttributeError (msg : String)
  | DecryptionFailed
deriving DecidableEq, Repr

/-- Truthiness of a string: `''` is falsy. -/
def strTruthy (s : String) : Bool :=
  match s.data with
  | [] => false
  | _ :: _ => true

/-- Truthiness of an optional string: Python `None` and `''` are falsy. -/
def truthyS : Option String → Bool
  | none => false
  | some s => strTruthy s

/-- Truthiness of a bytes-or-string value: `b''` and `''` are falsy. -/
def bsTruthy : BS → Bool
  | .bytes b => !b.isEmpty
  | .str s => strTruthy s

/-- Truthiness of an optional bytes-or-string value. -/
def truthyBS : Option BS → Bool
  | none => false
  | some v => bsTruthy v

/-- The bytes of a bytes-or-string field as the source hands them to a
backend primitive.  Post-construction key fields are always `bytes`
(see `setParams_ok_invariants`); the other arms record what the source
would pass along unchanged. -/
def asBytes : Option BS → Bytes
  | some (.bytes b) => b
  | some (.str s) => s.data.map Char.toNat
  | none => []

/-- UTF-8 encoding of a string, modelled on the ASCII range the sources
and claims exercise (`str.encode`). -/
def strBytes (s : String) : Bytes := s.data.map Char.toNat

/-- Lower-case hex digit for a nibble, as produced by `bytes.hex()` /
`binascii.hexlify`. -/
def hexDigitChar (n : Nat) : Char :=
  if n < 10 then Char.ofNat (48 + n) else Char.ofNat (87 + n)

/-- Hex character list of a byte string (`bytes.hex()`). -/
def hexChars : Bytes → List Char
  | [] => []
  | x :: xs => hexDigitChar (x / 16) :: hexDigitChar (x % 16) :: hexChars xs

/-- Hex string of a byte string (`bytes.hex()` / `binascii.hexlify`). -/
def hexEncode (b : Bytes) : String := String.mk (hexChars b)

/-- Value of one hex digit character, accepting both cases
(`bytes.fromhex` semantics). -/
def hexDigitVal? (c : Char) : Option Nat :=
  if 48 ≤ c.toNat ∧ c.toNat ≤ 57 then some (c.toNat - 48)
  else if 97 ≤ c.toNat ∧ c.toNat ≤ 102 then some (c.toNat - 87)
  else if 65 ≤ c.toNat ∧ c.toNat ≤ 70 then some (c.toNat - 55)
  else none

/-- Decode a hex character list into bytes; `none` models the `ValueError`
`bytes.fromhex` raises on an odd length or a non-hex character. -/
def hexDecodeL : List Char → Option Bytes
  | [] => some []
  | c1 :: c2 :: rest =>
    match hexDigitVal? c1, hexDigitVal? c2, hexDecodeL rest with
    | some h, some l, some bs => some ((16 * h + l) :: bs)
    | _, _, _ => none
  | [_] => none

/-- Decode a hex string (`bytes.fromhex`). -/
def hexDecode (s : String) : Option Bytes := hexDecodeL s.data

/-- Python `str.replace('0x', '')`: remove every (non-overlapping,
left-to-right) occurrence of `0x`. -/
def remove0x : List Char → List Char
  | [] => []
  | [c] => [c]
  | c1 :: c2 :: rest =>
    if c1 = '0' ∧ c2 = 'x' then remove0x rest
    else c1 :: remove0x (c2 :: rest)

/-- The external collaborator primitives consumed by the key manager, as
pure opaque functions (spec sections 1 and 6: the curve arithmetic, bip39,
the ss58 codec, the polkadot-js encrypted-json codec, the NaCl box and the
surrounding `c.Module` helpers are outside the verified core).  Random
draws (`generate_mnemonic`, and the `secrets.token_bytes(24)` expression
that Python evaluates once when the `encrypt_message` definition is
executed) appear as fixed fields of the record. -/
structure Backend where
  /-- `sr25519.pair_from_seed`: seed to `(public, private)`. -/
  sr_pair_from_seed : Bytes → Bytes × Bytes
  /-- `ed25519_zebra.ed_from_seed`: seed to `(private, public)`. -/
  ed_from_seed : Bytes → Bytes × Bytes
  /-- `sr25519.public_from_secret_key`. -/
  sr_public_from_secret : Bytes → Bytes
  /-- `sr25519.sign (public, private) message`. -/
  sr_sign : Bytes → Bytes → Bytes → Bytes
  /-- `ed25519_zebra.ed_sign private message`. -/
  ed_sign : Bytes → Bytes → Bytes
  /-- `ecdsa_sign private message`. -/
  ecdsa_sign : Bytes → Bytes → Bytes
  /-- `sr25519.verify signature message public`. -/
  sr_verify : Bytes → Bytes → Bytes → Bool
  /-- `ed25519_zebra.ed_verify signature message public`. -/
  ed_verify : Bytes → Bytes → Bytes → Bool
  /-- `ecdsa_verify signature message public`. -/
  ecdsa_verify : Bytes → Bytes → Bytes → Bool
  /-- `sr25519.hard_derive_keypair (chain_code, public, private) b''`,
  returning `(chain_code, public, private)` of the child. -/
  sr_hard_derive : Bytes → Bytes → Bytes → Bytes × Bytes × Bytes
  /-- `sr25519.derive_keypair (chain_code, public, private) b''` (soft). -/
  sr_soft_derive : Bytes → Bytes → Bytes → Bytes × Bytes × Bytes
  /-- `sr25519.convert_secret_key_to_ed25519`. -/
  convert_secret_to_ed25519 : Bytes → Bytes
  /-- `encode_pair public converted_private passphrase` (polkadot-js
  scrypt/XSalsa20-Poly1305 export encryption). -/
  encode_pair : Bytes → Bytes → String → Bytes
  /-- `base64.b64encode(..).decode()`. -/
  b64encode : Bytes → String
  /-- `decode_pair_from_encrypted_json json passphrase`, returning
  `(private, public)`; wrong passphrase or tampering raises, which the
  spec names `DecryptionFailed`. -/
  decode_pair : String → String → Except Err (Bytes × Bytes)
  /-- `bip39_to_mini_secret mnemonic password language_code`. -/
  bip39_to_mini_secret : String → String → String → Bytes
  /-- `ss58_encode public_key ss58_format` (format `none` models the
  Python `None` flowing into the codec). -/
  ss58_encode : Bytes → Option Nat → String
  /-- `ss58_decode address`, returning the public key as a hex string. -/
  ss58_decode : String → String
  /-- `get_ss58_format address`. -/
  get_ss58_format : String → Nat
  /-- `eth_keys` `PrivateKey(..).public_key.to_address()` (20 bytes). -/
  ecdsa_to_address : Bytes → Bytes
  /-- `PrivateKey(..).public_key.to_checksum_address()`. -/
  ecdsa_to_checksum_address : Bytes → String
  /-- `mnemonic_to_ecdsa_private_key mnemonic str_derivation_path
  passphrase`; `none` arguments model the external function's own
  defaults. -/
  mnemonic_to_ecdsa_private_key : String → Option String → Option String → Bytes
  /-- Chain code of one junction payload, as computed inside the external
  `extract_derive_path` (SCALE-encode then pad or hash to 32 bytes). -/
  chain_code_of : String → Bytes
  /-- `c.Module.hash` applied to a free-form seed string, yielding a hex
  seed string (spec 4.4 state 2). -/
  hashFn : String → String
  /-- The mnemonic drawn by `generate_mnemonic()` when no provenance input
  is given. -/
  generate_mnemonic : String
  /-- The value of the `secrets.token_bytes(24)` default-argument
  expression of `encrypt_message`, drawn once when the method definition
  is executed and cached by Python for every later call. -/
  token_bytes24 : Bytes
  /-- `nacl.bindings.crypto_sign_ed25519_pk_to_curve25519`. -/
  pk_to_curve : Bytes → Bytes
  /-- `nacl.bindings.crypto_sign_ed25519_sk_to_curve25519`. -/
  sk_to_curve : Bytes → Bytes
  /-- `nacl.public.Box(sender, recipient).encrypt message nonce`
  (ciphertext part; NaCl prepends the nonce to it on the wire). -/
  box_encrypt : Bytes → Bytes → Bytes → Bytes → Bytes
  /-- `c.Module.encrypt data password` (at-rest persistence cipher). -/
  module_encrypt : String → String → String

/-- The attribute dictionary of a `Keypair` object while `set_params` is
still assembling it (every field may be unset or hold an unnormalized
`Union[bytes, str]` value). -/
structure Pre where
  path : Option String := none
  password : Option String := none
  ss58_address : Option String := none
  public_key : Option BS := none
  private_key : Option BS := none
  ss58_format : Option Nat := none
  seed_hex : Option BS := none
  mnemonic : Option String := none
  crypto_type : String := "sr25519"
deriving DecidableEq, Repr

/-- The parameters of `Keypair.__init__` / `set_params` (each defaulting
to Python `None`, `crypto_type` defaulting to `'sr25519'`). -/
structure Params where
  path : Option String := none
  seed : Option String := none
  ss58_address : Option String := none
  public_key : Option BS := none
  private_key : Option BS := none
  ss58_format : Option Nat := none
  uri : Option String := none
  seed_hex : Option BS := none
  mnemonic : Option String := none
  password : Option String := none
  derive_path : Option String := none
  crypto_type : String := "sr25519"
deriving DecidableEq, Repr

/-- A fully constructed `Keypair`: `set_params` has run to completion, so
`public_key` is bytes; `private_key` keeps its raw shape (bytes once
truthy, see the length-invariant theorem). -/
structure KeypairState where
  path : Option String
  password : Option String
  ss58_address : Option String
  public_key : Bytes
  private_key : Option BS
  ss58_format : Option Nat
  seed_hex : Option BS
  mnemonic : Option String
  derive_path : Option String
  crypto_type : String
deriving DecidableEq, Repr

/-- The storage record produced by `state_dict` (`{"data": .., "encrypted": ..}`). -/
structure StorageRecord where
  data : String
  encrypted : Bool
deriving DecidableEq, Repr

/-- A stored state as read back by `get_json`: both keys may be absent
(`state.get('encrypted', False)`). -/
structure StateRecord where
  data : Option String := none
  encrypted : Option Bool := none
deriving DecidableEq, Repr

/-- The polkadot-js-compatible encrypted JSON export record. -/
structure EncryptedJson where
  encoded : String
  content : List String
  typ : List String
  version : String
  address : Option String
  meta_name : Option String
  whenCreated : Nat
deriving DecidableEq, Repr

/-- One derivation junction (external `extract_derive_path` output). -/
structure Junction where
  is_hard : Bool
  chain_code : Bytes
deriving DecidableEq, Repr

/-- Data accepted by `sign`/`verify`: `ScaleBytes`, raw bytes, or a string
(possibly `0x`-prefixed hex). -/
inductive DataInput where
  | scaleBytes (b : Bytes)
  | bytes (b : Bytes)
  | str (s : String)
deriving DecidableEq, Repr

/-- A signature tagged with the backend that produced it, making the
dispatch of `sign` observable. -/
inductive TaggedSig where
  | sr (sig : Bytes)
  | ed (sig : Bytes)
  | ec (sig : Bytes)
deriving DecidableEq, Repr

/-- Decidable equality of embedded run results, used to evaluate the
embedding on closed inputs. -/
instance exceptDecEq {ε α : Type} [DecidableEq ε] [DecidableEq α] :
    DecidableEq (Except ε α)
  | .ok x, .ok y =>
    if h : x = y then .isTrue (by rw [h])
    else .isFalse (by intro hh; cases hh; exact h rfl)
  | .error e, .error f =>
    if h : e = f then .isTrue (by rw [h])
    else .isFalse (by intro hh; cases hh; exact h rfl)
  | .ok _, .error _ => .isFalse (by intro hh; cases hh)
  | .error _, .ok _ => .isFalse (by intro hh; cases hh)

/-- The well-known substrate development phrase (`DEV_PHRASE`). -/
def DEV_PHRASE : String :=
  "bottom drive obey lake curtain smoke basket hold race lonely fit walk"

/-- Head test used by the SURI normalization. -/
def startsWithSlash (s : String) : Bool :=
  match s.data with
  | '/' :: _ => true
  | _ => false

/-- Lines 380-384 of the source: a SURI that does not start with `/` gets
one prepended, and the (now always slash-initial, nonempty) SURI gets
`DEV_PHRASE` prepended. -/
def normalizeSuri (suri : String) : String :=
  let s := if startsWithSlash suri then suri else "/" ++ suri
  DEV_PHRASE ++ s

/-- Split a character list at the first occurrence of `///`, yielding the
part before it and, when present, the part after it. -/
def splitAtTripleSlash : List Char → List Char × Option (List Char)
  | '/' :: '/' :: '/' :: rest => ([], some rest)
  | c :: rest =>
    let r := splitAtTripleSlash rest
    (c :: r.1, r.2)
  | [] => ([], none)

/-- Split a character list at the first `/`, keeping the slash with the
second part. -/
def splitAtSlash : List Char → List Char × List Char
  | [] => ([], [])
  | '/' :: rest => ([], '/' :: rest)
  | c :: rest =>
    let r := splitAtSlash rest
    (c :: r.1, r.2)

/-- Decompose a path into `(is_hard, payload)` segments, hard for `//` and
soft for `/`; `none` when the path is not a sequence of nonempty
junctions.  The fuel argument bounds the recursion by the input length. -/
def extractSegsF : Nat → List Char → Option (List (Bool × List Char))
  | _, [] => some []
  | 0, _ :: _ => none
  | fuel + 1, '/' :: '/' :: rest =>
    let seg := rest.takeWhile (fun c => c ≠ '/')
    let rest' := rest.dropWhile (fun c => c ≠ '/')
    if seg.isEmpty then none
    else
      match extractSegsF fuel rest' with
      | some js => some ((true, seg) :: js)
      | none => none
  | fuel + 1, '/' :: rest =>
    let seg := rest.takeWhile (fun c => c ≠ '/')
    let rest' := rest.dropWhile (fun c => c ≠ '/')
    if seg.isEmpty then none
    else
      match extractSegsF fuel rest' with
      | some js => some ((false, seg) :: js)
      | none => none
  | _ + 1, _ :: _ => none

/-- Junction segments of a path string. -/
def extractSegs (path : List Char) : Option (List (Bool × List Char)) :=
  extractSegsF path.length path

/-- The SURI regex of line 386, as it behaves on the grammar's inputs
(spec 4.2: `phrase[/soft]*[//hard]*[///password]`): the phrase is the part
before the first `/` (it cannot contain one), the path runs from there to
the first `///`, whose remainder is the password.  A phrase shorter than
two characters, or a path that is not a sequence of nonempty junctions,
makes the regex fail to match, which the source surfaces as an attribute
error on the failed match object. -/
def parseSuri (s : String) : Except Err (String × String × Option String) :=
  let bp := splitAtTripleSlash s.data
  let password := bp.2.map String.mk
  let pp := splitAtSlash bp.1
  let phrase := pp.1
  let path := pp.2
  if phrase.length < 2 then .error (.AttributeError "suri regex did not match")
  else
    match extractSegs path with
    | none => .error (.AttributeError "suri regex did not match")
    | some _ => .ok (String.mk phrase, String.mk path, password)

/-- Junctions of a derive path.  Modelled from the spec: the classifying
scan lives in the external `substrateinterface.key.extract_derive_path`
(only imported by the source); per spec 4.2 the path decomposes into an
ordered junction list, each soft (`/`) or hard (`//`) by its leading
delimiter, the payload encoded into a chain code (opaque, `chain_code_of`). -/
def extractJunctions (B : Backend) (path : String) : Except Err (List Junction) :=
  match extractSegs path.data with
  | none => .error (.ValueError "Reconstructed path does not match input")
  | some segs => .ok (segs.map fun sg => ⟨sg.1, B.chain_code_of (String.mk sg.2)⟩)

/-- Lines 436-450: fold the junctions in order over the parent
`(public, private)` pair, hard junctions through `hard_derive_keypair`,
soft ones through `derive_keypair`. -/
def foldJunctions (B : Backend) (js : List Junction) (pub priv : Bytes) : Bytes × Bytes :=
  js.foldl
    (fun pp j =>
      if j.is_hard then
        let r := B.sr_hard_derive j.chain_code pp.1 pp.2
        (r.2.1, r.2.2)
      else
        let r := B.sr_soft_derive j.chain_code pp.1 pp.2
        (r.2.1, r.2.2))
    (pub, priv)

/-- Hex decode of a `Union[bytes, str]` seed or key field, with the
source's `.replace('0x', '')` applied to string inputs. -/
def bsToBytes0x : BS → Option Bytes
  | .str s => hexDecodeL (remove0x s.data)
  | .bytes b => some b

/-- `create_from_seed(seed_hex, ss58_format, crypto_type, return_dict=True)`
(lines 312-355): decode the seed, run the scheme's seed-to-pair backend,
ss58-encode the address, and return the keyword dictionary that
`set_params` splices into `self.__dict__`. -/
def createFromSeedDict (B : Backend) (seed_hex : BS) (fmt : Option Nat)
    (crypto : String) : Except Err Pre :=
  match bsToBytes0x seed_hex with
  | none => .error (.ValueError "non-hexadecimal number found in fromhex() arg")
  | some sh =>
    if crypto = "sr25519" then
      let pr := B.sr_pair_from_seed sh
      .ok { ss58_address := some (B.ss58_encode pr.1 fmt),
            public_key := some (.bytes pr.1), private_key := some (.bytes pr.2),
            ss58_format := fmt, crypto_type := crypto, seed_hex := some (.bytes sh) }
    else if crypto = "ed25519" then
      let pr := B.ed_from_seed sh
      .ok { ss58_address := some (B.ss58_encode pr.2 fmt),
            public_key := some (.bytes pr.2), private_key := some (.bytes pr.1),
            ss58_format := fmt, crypto_type := crypto, seed_hex := some (.bytes sh) }
    else .error (.ValueError ("crypto_type " ++ crypto ++ " not supported"))

/-- `create_from_mnemonic(mnemonic, .., return_dict=True)` (lines 257-310):
for ecdsa the mnemonic goes straight to a private key; otherwise bip39
produces the mini secret, hex-encoded and routed through
`create_from_seed`. -/
def createFromMnemonicDict (B : Backend) (m : String) (fmt : Option Nat)
    (crypto lang : String) : Except Err Pre :=
  if crypto = "ecdsa" then
    if lang ≠ "en" then .error (.ValueError "ECDSA mnemonic only supports english")
    else
      .ok { private_key := some (.bytes (B.mnemonic_to_ecdsa_private_key m none none)),
            ss58_format := fmt, crypto_type := crypto, mnemonic := some m }
  else
    let seedArr := B.bip39_to_mini_secret m "" lang
    match createFromSeedDict B (.str (hexEncode seedArr)) fmt crypto with
    | .error e => .error e
    | .ok kw => .ok { kw with mnemonic := some m }

/-- `create_from_uri(suri, .., return_dict=True)` (lines 359-422): the
SURI is normalized and parsed; for ecdsa the phrase, path and password go
to the single-shot mnemonic-to-key function; otherwise a truthy password
raises, the phrase is resolved through `create_from_mnemonic`, and — the
`return_dict` early return of lines 418-422 — the keyword dictionary is
returned at once, before the derive-path block of lines 424-461 is
reached, so the junctions are never folded on this path. -/
def createFromUriDict (B : Backend) (suri : String) (fmt : Option Nat)
    (crypto lang : String) : Except Err Pre :=
  match parseSuri (normalizeSuri suri) with
  | .error e => .error e
  | .ok (phrase, path, password) =>
    if crypto = "ecdsa" then
      if lang ≠ "en" then .error (.ValueError "ECDSA mnemonic only supports english")
      else
        .ok { private_key := some (.bytes (B.mnemonic_to_ecdsa_private_key phrase
                (some (path.drop 1)) (some (password.getD "")))),
              ss58_format := fmt, crypto_type := crypto, mnemonic := some phrase }
    else
      if truthyS password then
        .error (.NotImplementedError
          ("Passwords in suri not supported for crypto_type " ++ crypto))
      else createFromMnemonicDict B phrase fmt crypto lang

/-- Line 175: a non-ecdsa keypair with a truthy address and no truthy
public key decodes the public key (as a hex string) from the address. -/
def step175 (B : Backend) (pre : Pre) : Pre :=
  if pre.crypto_type ≠ "ecdsa" ∧ truthyS pre.ss58_address = true ∧
      truthyBS pre.public_key = false then
    { pre with public_key := some (BS.str (B.ss58_decode (pre.ss58_address.getD ""))) }
  else pre

/-- Lines 178-192: when a truthy private key is present it is normalized
to bytes; for sr25519 it must be 64 bytes and, when the `public_key`
parameter of `set_params` was not truthy, the public key is rederived
from it; for ecdsa the public-key field and the address are both derived
from it. -/
def step178 (B : Backend) (paramPub : Option BS) (pre : Pre) : Except Err Pre :=
  match pre.private_key with
  | none => .ok pre
  | some pv =>
    if bsTruthy pv = false then .ok pre
    else
      match bsToBytes0x pv with
      | none => .error (.ValueError "non-hexadecimal number found in fromhex() arg")
      | some priv =>
        let pre1 := { pre with private_key := some (.bytes priv) }
        if pre1.crypto_type = "sr25519" then
          if priv.length ≠ 64 then .error (.ValueError "Secret key should be 64 bytes long")
          else if truthyBS paramPub = false then
            .ok { pre1 with public_key := some (.bytes (B.sr_public_from_secret priv)) }
          else .ok pre1
        else if pre1.crypto_type = "ecdsa" then
          .ok { pre1 with public_key := some (.bytes (B.ecdsa_to_address priv)),
                          ss58_address := some (B.ecdsa_to_checksum_address priv) }
        else .ok pre1

/-- Lines 194-198: a falsy public key is fatal (the spec's
`MissingKeyMaterial`); a string public key is hex-decoded. -/
def step194 (pre : Pre) : Except Err Bytes :=
  match pre.public_key with
  | none => .error (.ValueError "No SS58 formatted address or public key provided")
  | some pv =>
    if bsTruthy pv = false then
      .error (.ValueError "No SS58 formatted address or public key provided")
    else
      match bsToBytes0x pv with
      | none => .error (.ValueError "non-hexadecimal number found in fromhex() arg")
      | some b => .ok b

/-- Lines 200-208: the scheme's public-key length invariant is enforced
(20 bytes for ecdsa, 32 otherwise), and a non-ecdsa keypair without a
truthy address gets one ss58-encoded from the public key. -/
def step200 (B : Backend) (pre : Pre) (pub : Bytes) : Except Err (Bytes × Option String) :=
  if pre.crypto_type = "ecdsa" then
    if pub.length ≠ 20 then .error (.ValueError "Public key should be 20 bytes long")
    else .ok (pub, pre.ss58_address)
  else
    if pub.length ≠ 32 then .error (.ValueError "Public key should be 32 bytes long")
    else if truthyS pre.ss58_address then .ok (pub, pre.ss58_address)
    else .ok (pub, some (B.ss58_encode pub pre.ss58_format))

/-- The validation-and-normalization tail of `set_params` (lines 172-208),
run on every construction path.  `paramPub` is the `public_key` parameter
of `set_params` itself, consulted by line 186. -/
def finalize (B : Backend) (paramPub : Option BS) (pre : Pre) : Except Err KeypairState :=
  let pre0 := step175 B pre
  match step178 B paramPub pre0 with
  | .error e => .error e
  | .ok pre2 =>
    match step194 pre2 with
    | .error e => .error e
    | .ok pub =>
      match step200 B pre2 pub with
      | .error e => .error e
      | .ok pa =>
        .ok { path := pre2.path, password := pre2.password, ss58_address := pa.2,
              public_key := pa.1, private_key := pre2.private_key,
              ss58_format := pre2.ss58_format, seed_hex := pre2.seed_hex,
              mnemonic := pre2.mnemonic, derive_path := none,
              crypto_type := pre2.crypto_type }

/-- Line 144: no provenance input at all (every comparison is against
Python `None`, not truthiness). -/
def noProvenance (p : Params) : Bool :=
  p.seed.isNone && p.ss58_address.isNone && p.public_key.isNone &&
    p.private_key.isNone && p.seed_hex.isNone && p.mnemonic.isNone && p.uri.isNone

/-- `set_params` (lines 107-208) for a fresh path (the stored-key reload
branch of lines 138-142, which needs the external storage module, is the
one part not embedded: the claims all concern fresh construction).  The
provenance dispatch calls the `create_from_*` classmethods with
`return_dict=True` and — as in the source, which passes neither — their
default `ss58_format=42` and `crypto_type='sr25519'`, splices the
resulting dictionary into the attribute dictionary, and falls through to
`finalize`. -/
def setParams (B : Backend) (p : Params) : Except Err KeypairState :=
  let mnem := if noProvenance p then some B.generate_mnemonic else p.mnemonic
  let seedHex : Option BS :=
    match p.seed with
    | some s => if s.isEmpty then p.seed_hex else some (.str (B.hashFn s))
    | none => p.seed_hex
  match seedHex with
  | some sh =>
    match createFromSeedDict B sh (some 42) "sr25519" with
    | .error e => .error e
    | .ok kw => finalize B p.public_key { kw with path := p.path, password := p.password }
  | none =>
    match mnem with
    | some m =>
      match createFromMnemonicDict B m (some 42) "sr25519" "en" with
      | .error e => .error e
      | .ok kw => finalize B p.public_key { kw with path := p.path, password := p.password }
    | none =>
      match p.uri with
      | some u =>
        match createFromUriDict B u (some 42) "sr25519" "en" with
        | .error e => .error e
        | .ok kw => finalize B p.public_key { kw with path := p.path, password := p.password }
      | none =>
        finalize B p.public_key
          { path := p.path, password := p.password, ss58_address := p.ss58_address,
            public_key := p.public_key, private_key := p.private_key,
            ss58_format := p.ss58_format, seed_hex := p.seed_hex,
            mnemonic := p.mnemonic, crypto_type := p.crypto_type }

/-- `create_from_seed(.., return_dict=False)`: the computed keyword
dictionary is handed to `cls(**kwargs)`, i.e. to `set_params` — which,
seeing `seed_hex`, re-runs `create_from_seed` with its own defaults. -/
def createFromSeedFull (B : Backend) (seed_hex : BS) (fmt : Option Nat)
    (crypto : String) : Except Err KeypairState :=
  match createFromSeedDict B seed_hex fmt crypto with
  | .error e => .error e
  | .ok kw =>
    setParams B
      { ss58_address := kw.ss58_address, public_key := kw.public_key,
        private_key := kw.private_key, ss58_format := kw.ss58_format,
        seed_hex := kw.seed_hex, crypto_type := kw.crypto_type }

/-- `create_from_mnemonic(.., return_dict=False)` (lines 257-310),
including the post-construction `keypair.mnemonic = mnemonic` assignment
of line 308. -/
def createFromMnemonicFull (B : Backend) (m : String) (fmt : Option Nat)
    (crypto lang : String) : Except Err KeypairState :=
  if crypto = "ecdsa" then
    if lang ≠ "en" then .error (.ValueError "ECDSA mnemonic only supports english")
    else
      match setParams B
          { private_key := some (.bytes (B.mnemonic_to_ecdsa_private_key m none none)),
            ss58_format := fmt, crypto_type := crypto } with
      | .error e => .error e
      | .ok kp => .ok { kp with mnemonic := some m }
  else
    let seedArr := B.bip39_to_mini_secret m "" lang
    match createFromSeedFull B (.str (hexEncode seedArr)) fmt crypto with
    | .error e => .error e
    | .ok kp => .ok { kp with mnemonic := some m }

/-- `create_from_uri(.., return_dict=False)` (lines 359-463): parse the
SURI; for ecdsa line 405 passes the keyword dictionary itself positionally
as the `private_key` of `create_from_private_key`, so the sr25519 default
branch of `set_params` length-checks the three-entry dictionary and
raises; otherwise resolve the phrase, then — only on this
`return_dict=False` path — walk a nonempty derive path: non-sr25519
schemes raise (the spec's `UnsupportedDerivation`), sr25519 folds the
junctions and constructs the child keypair. -/
def createFromUriFull (B : Backend) (suri : String) (fmt : Option Nat)
    (crypto lang : String) : Except Err KeypairState :=
  match parseSuri (normalizeSuri suri) with
  | .error e => .error e
  | .ok (phrase, path, password) =>
    if crypto = "ecdsa" then
      if lang ≠ "en" then .error (.ValueError "ECDSA mnemonic only supports english")
      else .error (.ValueError "Secret key should be 64 bytes long")
    else
      if truthyS password then
        .error (.NotImplementedError
          ("Passwords in suri not supported for crypto_type " ++ crypto))
      else
        match createFromMnemonicFull B phrase fmt crypto lang with
        | .error e => .error e
        | .ok kp =>
          if path ≠ "" then
            if crypto ≠ "sr25519" then
              .error (.NotImplementedError "Derivation paths for this crypto type not supported")
            else
              match extractJunctions B path with
              | .error e => .error e
              | .ok js =>
                let c := foldJunctions B js kp.public_key (asBytes kp.private_key)
                setParams B
                  { public_key := some (.bytes c.1), private_key := some (.bytes c.2),
                    ss58_format := fmt, crypto_type := crypto }
          else .ok kp

/-- Data normalization of `sign`/`verify` (lines 570-576 and 630-641).
Modelled from the spec for the `python2str` step, which lives in the
external `c.Module`: the spec (4.4) says sign/verify accept a
`ScaleBytes` buffer, raw bytes, a `0x`-prefixed hex string, or plain
text, each mapped to a raw byte sequence; the branch structure below the
`python2str` call is the source's own. -/
def normalizeData : DataInput → Except Err Bytes
  | .scaleBytes b => .ok b
  | .bytes b => .ok b
  | .str s =>
    match s.data with
    | '0' :: 'x' :: rest =>
      match hexDecodeL rest with
      | some b => .ok b
      | none => .error (.ValueError "non-hexadecimal number found in fromhex() arg")
    | _ => .ok (strBytes s)

/-- The private key as bytes for a signing operation: falsy values fail
the line 578 check; a truthy string field would reach the backend and be
rejected there (never the case for a constructed keypair). -/
def privForSigning (kp : KeypairState) : Except Err Bytes :=
  match kp.private_key with
  | some (.bytes b) =>
    if b.isEmpty then .error (.ConfigurationError "No private key set to create signatures")
    else .ok b
  | some (.str s) =>
    if strTruthy s then .error (.TypeError "argument must be bytes")
    else .error (.ConfigurationError "No private key set to create signatures")
  | none => .error (.ConfigurationError "No private key set to create signatures")

/-- `sign(data, crypto_type)` (lines 557-600): normalize the data, require
a truthy private key, then dispatch on the `crypto_type` argument — the
keypair's own stored scheme tag is never consulted. -/
def signK (B : Backend) (kp : KeypairState) (data : DataInput)
    (crypto_type : String) : Except Err TaggedSig :=
  match normalizeData data with
  | .error e => .error e
  | .ok d =>
    match privForSigning kp with
    | .error e => .error e
    | .ok priv =>
      if crypto_type = "sr25519" then .ok (.sr (B.sr_sign kp.public_key priv d))
      else if crypto_type = "ed25519" then .ok (.ed (B.ed_sign priv d))
      else if crypto_type = "ecdsa" then .ok (.ec (B.ecdsa_sign priv d))
      else .error (.ConfigurationError "Crypto type not supported")

/-- `sign(data)` with the `crypto_type='sr25519'` parameter default. -/
def signDefaultK (B : Backend) (kp : KeypairState) (data : DataInput) :
    Except Err TaggedSig :=
  signK B kp data "sr25519"

/-- The `<Bytes>`-wrapped form of a message used by the verification
retry (line 664). -/
def wrapBytes (d : Bytes) : Bytes :=
  strBytes "<Bytes>" ++ d ++ strBytes "</Bytes>"

/-- `verify(data, signature, public_key, crypto_type)` (lines 602-666),
explicit-signature mode: a string signature is hex-decoded (line 628,
without a `0x` strip), the data is normalized, the verify function is
chosen by the `crypto_type` argument, and line 659 verifies against
`self.public_key` (the normalized `public_key` local of lines 632-633 is
never used there); a `false` result is retried once on the
`<Bytes>`-wrapped message. -/
def verifyK (B : Backend) (kp : KeypairState) (data : DataInput) (signature : BS)
    (crypto_type : String) : Except Err Bool :=
  match (match signature with
         | .str s => hexDecodeL s.data
         | .bytes b => some b) with
  | none => .error (.ValueError "non-hexadecimal number found in fromhex() arg")
  | some sig =>
    match normalizeData data with
    | .error e => .error e
    | .ok d =>
      match (if crypto_type = "sr25519" then some B.sr_verify
             else if crypto_type = "ed25519" then some B.ed_verify
             else if crypto_type = "ecdsa" then some B.ecdsa_verify
             else none) with
      | none => .error (.ConfigurationError "Crypto type not supported")
      | some f =>
        let verified := f sig d kp.public_key
        let verified := if verified then verified else f sig (wrapBytes d) kp.public_key
        .ok verified

/-- `verify(data, signature)` with the `crypto_type='sr25519'` default. -/
def verifyDefaultK (B : Backend) (kp : KeypairState) (data : DataInput)
    (signature : BS) : Except Err Bool :=
  verifyK B kp data signature "sr25519"

/-- `encrypt_message(message, recipient_public_key, nonce=..)` (lines
668-692).  The `nonce` parameter's default expression
`secrets.token_bytes(24)` is evaluated once, when Python executes the
method definition, and the resulting value `B.token_bytes24` is bound for
every call that omits the argument; the result pairs the nonce actually
used with the box ciphertext (NaCl transmits exactly those two). -/
def encrypt_message (B : Backend) (kp : KeypairState) (message : BS)
    (recipient_public_key : Bytes) (nonce : Option Bytes) :
    Except Err (Bytes × Bytes) :=
  let nonceUsed := nonce.getD B.token_bytes24
  if truthyBS kp.private_key = false then
    .error (.ConfigurationError "No private key set to encrypt")
  else if kp.crypto_type ≠ "ed25519" then
    .error (.ConfigurationError "Only ed25519 keypair type supported")
  else
    let curvePub := B.pk_to_curve recipient_public_key
    let curvePriv := B.sk_to_curve (asBytes kp.private_key ++ kp.public_key)
    let msg := match message with | .bytes b => b | .str s => strBytes s
    .ok (nonceUsed, B.box_encrypt curvePriv curvePub msg nonceUsed)

/-- `export_to_encrypted_json(passphrase, name)` (lines 523-555): sr25519
only; the expanded private key is converted to the Ed25519-style wire
encoding, encrypted by the vendor codec, and wrapped in the fixed JSON
shape.  `now` stands for `int(time.time())`. -/
def export_to_encrypted_json (B : Backend) (kp : KeypairState) (passphrase : String)
    (name : Option String) (now : Nat) : Except Err EncryptedJson :=
  let name' := if truthyS name then name else kp.ss58_address
  if kp.crypto_type ≠ "sr25519" then
    .error (.NotImplementedError ("Cannot create JSON for crypto_type " ++ kp.crypto_type))
  else
    let converted := B.convert_secret_to_ed25519 (asBytes kp.private_key)
    let encoded := B.encode_pair kp.public_key converted passphrase
    .ok { encoded := B.b64encode encoded, content := ["pkcs8", "sr25519"],
          typ := ["scrypt", "xsalsa20-poly1305"], version := "3",
          address := kp.ss58_address, meta_name := name', whenCreated := now }

/-- `create_from_encrypted_json(json_data, passphrase, ss58_format)`
(lines 489-521): decrypt through the vendor codec, infer the scheme from
`encoding.content` (truncating an ed25519 secret to 32 bytes), infer the
format from the address when not supplied, and construct through
`create_from_private_key`, i.e. `set_params`. -/
def create_from_encrypted_json (B : Backend) (j : EncryptedJson) (passphrase : String)
    (fmt : Option Nat) : Except Err KeypairState :=
  match B.decode_pair j.encoded passphrase with
  | .error e => .error e
  | .ok pr =>
    match (if j.content.contains "sr25519" then some ("sr25519", pr.1)
           else if j.content.contains "ed25519" then some ("ed25519", pr.1.take 32)
           else none) with
    | none => .error (.NotImplementedError "Unknown KeypairType found in JSON")
    | some cp =>
      let fmt' := match fmt, j.address with
        | none, some a => some (B.get_ss58_format a)
        | f, _ => f
      setParams B
        { public_key := some (.bytes pr.2), private_key := some (.bytes cp.2),
          ss58_format := fmt', crypto_type := cp.1 }

/-- A Python attribute value as it sits in a `Keypair.__dict__`. -/
inductive PyVal where
  | pnone
  | pstr (s : String)
  | pbytes (b : Bytes)
  | pint (n : Nat)
deriving DecidableEq, Repr

/-- Attribute-dictionary view of an optional string field. -/
def pyOptStr : Option String → PyVal
  | none => .pnone
  | some s => .pstr s

/-- Attribute-dictionary view of an optional bytes-or-string field. -/
def pyOptBS : Option BS → PyVal
  | none => .pnone
  | some (.bytes b) => .pbytes b
  | some (.str s) => .pstr s

/-- Attribute-dictionary view of an optional integer field. -/
def pyOptNat : Option Nat → PyVal
  | none => .pnone
  | some n => .pint n

/-- The `__dict__` of a constructed `Keypair`, in attribute order. -/
def dictOf (kp : KeypairState) : List (String × PyVal) :=
  [("path", pyOptStr kp.path), ("password", pyOptStr kp.password),
   ("ss58_address", pyOptStr kp.ss58_address), ("public_key", .pbytes kp.public_key),
   ("private_key", pyOptBS kp.private_key), ("ss58_format", pyOptNat kp.ss58_format),
   ("seed_hex", pyOptBS kp.seed_hex), ("mnemonic", pyOptStr kp.mnemonic),
   ("derive_path", pyOptStr kp.derive_path), ("crypto_type", .pstr kp.crypto_type)]

/-- The line 725-727 loop body: a bytes value is replaced by its
`.hex()` string, anything else is left alone. -/
def hexifyVal : PyVal → PyVal
  | .pbytes b => .pstr (hexEncode b)
  | v => v

/-- The line 725-727 loop over the whole attribute dictionary. -/
def hexifyDict (d : List (String × PyVal)) : List (String × PyVal) :=
  d.map fun kv => (kv.1, hexifyVal kv.2)

/-- Crude JSON rendering of one attribute value for the `json.dumps` of
line 729 (string escaping elided; the payload text is not load-bearing
for any claim).  `json.dumps` would raise on a bytes value, but the loop
of lines 725-727 has already replaced them all. -/
def serializePy : PyVal → String
  | .pnone => "null"
  | .pstr s => "\"" ++ s ++ "\""
  | .pint n => toString n
  | .pbytes b => "\"" ++ hexEncode b ++ "\""

/-- The `json.dumps` of line 729 over the attribute dictionary. -/
def serializeDict (d : List (String × PyVal)) : String :=
  "\x7b" ++ String.intercalate ", "
    (d.map fun kv => "\"" ++ kv.1 ++ "\": " ++ serializePy kv.2) ++ "\x7d"

/-- `state_dict(password)` (lines 723-734).  Line 724 stores
`self.__dict__` itself — not a copy — under `'data'`, so the hexifying
loop of lines 725-727 rewrites the keypair's own attributes in place:
the result pairs the produced storage record with the keypair's
attribute dictionary as it stands after the call. -/
def state_dict (B : Backend) (kp : KeypairState) (password : Option String) :
    StorageRecord × List (String × PyVal) :=
  let d := hexifyDict (dictOf kp)
  let payload := serializeDict d
  match password with
  | some pw => ({ data := B.module_encrypt payload pw, encrypted := true }, d)
  | none => ({ data := payload, encrypted := false }, d)

/-- The keypair's attribute dictionary after a `sign` call: the method
body (lines 557-600) contains no attribute assignment. -/
def dictAfterSign (B : Backend) (kp : KeypairState) (data : DataInput)
    (crypto_type : String) : List (String × PyVal) :=
  let _r := signK B kp data crypto_type
  dictOf kp

/-- The attribute dictionary after a `verify` call: the method body
(lines 602-666) contains no attribute assignment. -/
def dictAfterVerify (B : Backend) (kp : KeypairState) (data : DataInput)
    (signature : BS) (crypto_type : String) : List (String × PyVal) :=
  let _r := verifyK B kp data signature crypto_type
  dictOf kp

/-- The attribute dictionary after `export_to_encrypted_json`: the method
body (lines 523-555) contains no attribute assignment. -/
def dictAfterExport (B : Backend) (kp : KeypairState) (passphrase : String)
    (name : Option String) (now : Nat) : List (String × PyVal) :=
  let _r := export_to_encrypted_json B kp passphrase name now
  dictOf kp

/-- The attribute dictionary after `state_dict` (lines 723-734): the
in-place hexifying loop has rewritten every bytes-typed attribute. -/
def dictAfterStateDict (B : Backend) (kp : KeypairState) (password : Option String) :
    List (String × PyVal) :=
  (state_dict B kp password).2

/-- `resolve_key_path` (lines 746-749). -/
def resolve_key_path (kp : KeypairState) (path : Option String) : Option String :=
  match path with
  | none => kp.path
  | some p => some p

/-- `is_encrypted(path, state)` (lines 770-776): the record's
`encrypted` flag is read into a local (`state.get('encrypted', False)`),
and then the bare `return` of line 776 yields Python `None`.
`B.get_json` stands for the external storage read used when no state is
passed. -/
def is_encrypted (getJson : Option String → StateRecord)
    (kp : KeypairState) (path : Option String) (state : Option StateRecord) :
    Option Bool :=
  let p := resolve_key_path kp path
  let st := match state with
    | none => getJson p
    | some s => s
  let _encrypted := st.encrypted.getD false
  none

/-- A small concrete backend used to evaluate the embedding on closed
inputs (witnesses and counterexamples).  Its functions are arbitrary but
length-correct stand-ins for the opaque collaborators. -/
def testBackend : Backend where
  sr_pair_from_seed := fun _ => (List.replicate 32 1, List.replicate 64 2)
  ed_from_seed := fun _ => (List.replicate 64 3, List.replicate 32 4)
  sr_public_from_secret := fun _ => List.replicate 32 1
  sr_sign := fun _ _ m => 77 :: m
  ed_sign := fun _ m => 78 :: m
  ecdsa_sign := fun _ m => 79 :: m
  sr_verify := fun sig m _ => sig == 77 :: m
  ed_verify := fun sig m _ => sig == 78 :: m
  ecdsa_verify := fun sig m _ => sig == 79 :: m
  sr_hard_derive := fun _ _ _ => ([], List.replicate 32 9, List.replicate 64 9)
  sr_soft_derive := fun _ _ _ => ([], List.replicate 32 8, List.replicate 64 8)
  convert_secret_to_ed25519 := fun b => b
  encode_pair := fun _ _ _ => [5, 5, 5]
  b64encode := fun b => hexEncode b
  decode_pair := fun _ p =>
    if p = "hunter2" then .ok (List.replicate 64 2, List.replicate 32 1)
    else .error .DecryptionFailed
  bip39_to_mini_secret := fun _ _ _ => List.replicate 32 7
  ss58_encode := fun _ _ => "5TESTADDR"
  ss58_decode := fun _ => hexEncode (List.replicate 32 1)
  get_ss58_format := fun _ => 42
  ecdsa_to_address := fun _ => List.replicate 20 6
  ecdsa_to_checksum_address := fun _ => "0xTESTADDR"
  mnemonic_to_ecdsa_private_key := fun _ _ _ => List.replicate 32 5
  chain_code_of := fun _ => List.replicate 32 11
  hashFn := fun _ => hexEncode (List.replicate 32 12)
  generate_mnemonic := "abandon ability able about above absent absorb abstract absurd abuse access accident"
  token_bytes24 := List.replicate 24 13
  pk_to_curve := fun b => b
  sk_to_curve := fun b => b
  box_encrypt := fun _ _ m _ => 99 :: m
  module_encrypt := fun s _ => s

/-- A storage read stub for `is_encrypted` witnesses. -/
def testGetJson : Option String → StateRecord :=
  fun _ => { data := some "payload", encrypted := some true }

/-- A concrete sr25519 keypair: exactly the state `set_params` builds
from a raw 32-byte public and 64-byte private key over `testBackend`. -/
def testKpSr : KeypairState :=
  { path := none, password := none, ss58_address := some "5TESTADDR",
    public_key := List.replicate 32 1,
    private_key := some (.bytes (List.replicate 64 2)),
    ss58_format := none, seed_hex := none, mnemonic := none,
    derive_path := none, crypto_type := "sr25519" }

/-- The same material constructed with the ed25519 scheme tag. -/
def testKpEd : KeypairState := { testKpSr with crypto_type := "ed25519" }

/-- The same keypair without its private key (verify-only). -/
def testKpVerifyOnly : KeypairState := { testKpSr with private_key := none }

/-- The encrypted-JSON export record of a keypair, as
`export_to_encrypted_json` assembles it. -/
def exportRecord (B : Backend) (kp : KeypairState) (passphrase : String)
    (name : Option String) (now : Nat) : EncryptedJson where
  encoded := B.b64encode (B.encode_pair kp.public_key (B.convert_secret_to_ed25519 (asBytes kp.private_key)) passphrase)
  content := ["pkcs8", "sr25519"]
  typ := ["scrypt", "xsalsa20-poly1305"]
  version := "3"
  address := kp.ss58_address
  meta_name := if truthyS name then name else kp.ss58_address
  whenCreated := now

/-- The development seed, pair and hard-derived `Alice` child used by the
`//Alice` scenario. -/
def devSeed (B : Backend) : Bytes := B.bip39_to_mini_secret DEV_PHRASE "" "en"

/-- The sr25519 pair of the development phrase. -/
def devPair (B : Backend) : Bytes × Bytes := B.sr_pair_from_seed (devSeed B)

/-- The hard-derived `//Alice` child of the development pair: the single
hard junction folded over the parent key material. -/
def aliceChild (B : Backend) : Bytes × Bytes :=
  foldJunctions B [⟨true, B.chain_code_of "Alice"⟩] (devPair B).1 (devPair B).2

/-- The keyword dictionary produced by the sr25519 branch of
`create_from_seed(.., return_dict=True)`. -/
def seedKw (B : Backend) (sh : Bytes) (fmt : Option Nat) : Pre :=
  { ss58_address := some (B.ss58_encode (B.sr_pair_from_seed sh).1 fmt),
    public_key := some (.bytes (B.sr_pair_from_seed sh).1),
    private_key := some (.bytes (B.sr_pair_from_seed sh).2),
    ss58_format := fmt, crypto_type := "sr25519", seed_hex := some (.bytes sh) }

/-- The keyword dictionary produced by the ed25519 branch of
`create_from_seed(.., return_dict=True)`. -/
def edKw (B : Backend) (sh : Bytes) (fmt : Option Nat) : Pre :=
  { ss58_address := some (B.ss58_encode (B.ed_from_seed sh).2 fmt),
    public_key := some (.bytes (B.ed_from_seed sh).2),
    private_key := some (.bytes (B.ed_from_seed sh).1),
    ss58_format := fmt, crypto_type := "ed25519", seed_hex := some (.bytes sh) }

/-- The fully constructed sr25519 root keypair of a seed, as every
`create_from_seed(return_dict=False)` run produces it after `set_params`
re-dispatches with its own defaults (`ss58_format=42`,
`crypto_type='sr25519'`). -/
def seedRootState (B : Backend) (sh : Bytes) : KeypairState :=
  { path := none, password := none,
    ss58_address := some (B.ss58_encode (B.sr_pair_from_seed sh).1 (some 42)),
    public_key := (B.sr_pair_from_seed sh).1,
    private_key := some (.bytes (B.sr_pair_from_seed sh).2),
    ss58_format := some 42, seed_hex := some (.bytes sh),
    mnemonic := none, derive_path := none, crypto_type := "sr25519" }

/-- The attribute dictionary of the direct (state 5) construction branch
of `set_params`: every field comes straight from the parameters. -/
def directPre (p : Params) : Pre :=
  { path := p.path, password := p.password, ss58_address := p.ss58_address,
    public_key := p.public_key, private_key := p.private_key,
    ss58_format := p.ss58_format, seed_hex := p.seed_hex,
    mnemonic := p.mnemonic, crypto_type := p.crypto_type }

section Lemmas

/-- Each nibble encodes to a hex character that decodes back to itself. -/
theorem hexDigitVal?_hexDigitChar : ∀ n < 16, hexDigitVal? (hexDigitChar n) = some n := by
  decide

/-- Hex characters of genuine bytes are never `'x'`. -/
theorem hexDigitChar_ne_x : ∀ n < 16, hexDigitChar n ≠ 'x' := by
  decide

/-- A nonempty byte list has a false `isEmpty`. -/
theorem isEmpty_false_of_ne {l : Bytes} (h : l ≠ []) : l.isEmpty = false := by
  cases l with
  | nil => exact absurd rfl h
  | cons a as => rfl

/-- A byte list is nonempty exactly when its length is nonzero. -/
theorem isEmpty_false_of_length {l : Bytes} {n : Nat} (h : l.length = n) (hn : n ≠ 0) :
    l.isEmpty = false := by
  cases l with
  | nil => simp at h; omega
  | cons a as => rfl

/-- Truthiness of a present bytes value. -/
theorem truthyBS_some_bytes (b : Bytes) : truthyBS (some (.bytes b)) = !b.isEmpty := rfl

/-- Truthiness of a present string value. -/
theorem truthyBS_some_str (s : String) : truthyBS (some (.str s)) = strTruthy s := rfl

/-- Truthiness of an absent bytes-or-string value. -/
theorem truthyBS_none : truthyBS none = false := rfl

/-- Truthiness of a present bytes-or-string value. -/
theorem truthyBS_some (v : BS) : truthyBS (some v) = bsTruthy v := rfl

/-- Truthiness of an absent string. -/
theorem truthyS_none : truthyS none = false := rfl

/-- Truthiness of a present string. -/
theorem truthyS_some (s : String) : truthyS (some s) = strTruthy s := rfl

/-- `bytes.fromhex` inverts `bytes.hex()` on genuine bytes. -/
theorem hexDecodeL_hexChars {b : Bytes} (h : ∀ x ∈ b, x < 256) :
    hexDecodeL (hexChars b) = some b := by
  induction b with
  | nil => rfl
  | cons x xs ih =>
    have hx : x < 256 := h x (List.mem_cons_self x xs)
    have hhe : x / 16 < 16 := by omega
    have hle : x % 16 < 16 := Nat.mod_lt _ (by omega)
    have ihx := ih (fun y hy => h y (List.mem_cons_of_mem x hy))
    simp only [hexChars, hexDecodeL, hexDigitVal?_hexDigitChar _ hhe,
      hexDigitVal?_hexDigitChar _ hle, ihx]
    congr 1
    congr 1
    omega

/-- No character of the hex encoding of genuine bytes is `'x'`. -/
theorem hexChars_ne_x {b : Bytes} (h : ∀ x ∈ b, x < 256) :
    ∀ c ∈ hexChars b, c ≠ 'x' := by
  induction b with
  | nil => intro c hc; simp [hexChars] at hc
  | cons x xs ih =>
    intro c hc
    have hx : x < 256 := h x (List.mem_cons_self x xs)
    simp only [hexChars, List.mem_cons] at hc
    rcases hc with h1 | h2 | h3
    · exact h1 ▸ hexDigitChar_ne_x _ (by omega)
    · exact h2 ▸ hexDigitChar_ne_x _ (Nat.mod_lt _ (by omega))
    · exact ih (fun y hy => h y (List.mem_cons_of_mem x hy)) c h3

/-- `str.replace('0x', '')` leaves a string without `'x'` untouched. -/
theorem remove0x_id : ∀ l : List Char, (∀ c ∈ l, c ≠ 'x') → remove0x l = l := by
  intro l
  induction l with
  | nil => intro _; rfl
  | cons c1 rest ih =>
    intro h
    cases rest with
    | nil => rfl
    | cons c2 rest2 =>
      have hx : c2 ≠ 'x' := h c2 (by simp)
      have hcond : ¬(c1 = '0' ∧ c2 = 'x') := fun hh => hx hh.2
      simp only [remove0x, if_neg hcond]
      congr 1
      exact ih fun c hc => h c (List.mem_cons_of_mem _ hc)

/-- Decoding the hex-string form of genuine bytes recovers them
(`create_from_seed`'s `bytes.fromhex(seed_hex.replace('0x', ''))`). -/
theorem bsToBytes0x_hexEncode {b : Bytes} (h : ∀ x ∈ b, x < 256) :
    bsToBytes0x (.str (hexEncode b)) = some b := by
  simp only [bsToBytes0x, hexEncode, remove0x_id _ (hexChars_ne_x h)]
  exact hexDecodeL_hexChars h

/-- The sr25519 seed dictionary on a bytes seed. -/
theorem createFromSeedDict_bytes_sr (B : Backend) (sh : Bytes) (fmt : Option Nat) :
    createFromSeedDict B (.bytes sh) fmt "sr25519" = .ok (seedKw B sh fmt) := rfl

/-- The ed25519 seed dictionary on a bytes seed. -/
theorem createFromSeedDict_bytes_ed (B : Backend) (sh : Bytes) (fmt : Option Nat) :
    createFromSeedDict B (.bytes sh) fmt "ed25519" = .ok (edKw B sh fmt) := rfl

/-- The sr25519 seed dictionary on the hex-string form of a bytes seed. -/
theorem createFromSeedDict_str_sr (B : Backend) (sh : Bytes) (fmt : Option Nat)
    (h256 : ∀ x ∈ sh, x < 256) :
    createFromSeedDict B (.str (hexEncode sh)) fmt "sr25519" = .ok (seedKw B sh fmt) := by
  simp only [createFromSeedDict, bsToBytes0x_hexEncode h256]
  rfl

/-- The ed25519 seed dictionary on the hex-string form of a bytes seed. -/
theorem createFromSeedDict_str_ed (B : Backend) (sh : Bytes) (fmt : Option Nat)
    (h256 : ∀ x ∈ sh, x < 256) :
    createFromSeedDict B (.str (hexEncode sh)) fmt "ed25519" = .ok (edKw B sh fmt) := by
  simp only [createFromSeedDict, bsToBytes0x_hexEncode h256]
  rfl

/-- The validation tail on an sr25519 attribute dictionary whose keys are
already length-correct bytes and whose `public_key` parameter was truthy:
it succeeds, keeping the material and ss58-encoding an address only when
none is set. -/
theorem finalize_srBytes (B : Backend) (pP : Option BS) (addr : Option String)
    (fmtv : Option Nat) (sd : Option BS) (mn pa pw : Option String) (pub priv : Bytes)
    (hp : truthyBS pP = true) (hpriv : priv.length = 64) (hpub : pub.length = 32) :
    finalize B pP
      { path := pa, password := pw, ss58_address := addr,
        public_key := some (.bytes pub), private_key := some (.bytes priv),
        ss58_format := fmtv, seed_hex := sd, mnemonic := mn, crypto_type := "sr25519" } =
    .ok { path := pa, password := pw,
          ss58_address := if truthyS addr then addr else some (B.ss58_encode pub fmtv),
          public_key := pub, private_key := some (.bytes priv), ss58_format := fmtv,
          seed_hex := sd, mnemonic := mn, derive_path := none,
          crypto_type := "sr25519" } := by
  have hpubne : pub.isEmpty = false := isEmpty_false_of_length hpub (by omega)
  have hprivne : priv.isEmpty = false := isEmpty_false_of_length hpriv (by omega)
  by_cases haddr : truthyS addr = true <;>
    simp [finalize, step175, step178, step194, step200, truthyBS_some_bytes,
      bsToBytes0x, bsTruthy, hpubne, hprivne, hpriv, hpub, hp, haddr]

/-- With a bytes `seed_hex` (and no `seed`), `set_params` takes the seed
branch: re-run `create_from_seed` with the dispatch defaults, splice the
dictionary, and fall through to the validation tail. -/
theorem setParams_seedPath (B : Backend) (p : Params) (sh : Bytes)
    (hseed : p.seed = none) (hsh : p.seed_hex = some (.bytes sh)) :
    setParams B p =
      finalize B p.public_key
        { seedKw B sh (some 42) with path := p.path, password := p.password } := by
  have hnp : noProvenance p = false := by
    simp [noProvenance, hsh]
  simp only [setParams, hseed, hsh, hnp, Bool.false_eq_true, if_false,
    createFromSeedDict_bytes_sr]

/-- With no seed, mnemonic or URI and some provenance input present,
`set_params` takes the direct branch straight to the validation tail. -/
theorem setParams_direct (B : Backend) (p : Params)
    (hseed : p.seed = none) (hsh : p.seed_hex = none) (hmn : p.mnemonic = none)
    (huri : p.uri = none) (hnp : noProvenance p = false) :
    setParams B p = finalize B p.public_key (directPre p) := by
  simp only [setParams, hseed, hsh, hmn, huri, hnp, Bool.false_eq_true, if_false, directPre]

/-- With a URI (and no seed or mnemonic), `set_params` routes through
`create_from_uri(.., return_dict=True)` with the dispatch defaults. -/
theorem setParams_uriPath (B : Backend) (p : Params) (u : String)
    (hseed : p.seed = none) (hsh : p.seed_hex = none) (hmn : p.mnemonic = none)
    (huri : p.uri = some u) :
    setParams B p =
      match createFromUriDict B u (some 42) "sr25519" "en" with
      | .error e => .error e
      | .ok kw =>
        finalize B p.public_key { kw with path := p.path, password := p.password } := by
  have hnp : noProvenance p = false := by
    simp [noProvenance, huri]
  simp only [setParams, hseed, hsh, hmn, huri, hnp, Bool.false_eq_true, if_false]

/-- `create_from_seed(hex_seed, fmt, 'sr25519', return_dict=False)`
succeeds and yields the sr25519 root of the seed whenever the backend's
pair is length-correct; `fmt` is discarded by the `set_params`
re-dispatch, which uses its own default 42. -/
theorem createFromSeedFull_sr (B : Backend) (sh : Bytes) (fmt : Option Nat)
    (h256 : ∀ x ∈ sh, x < 256)
    (hpriv : (B.sr_pair_from_seed sh).2.length = 64)
    (hpub : (B.sr_pair_from_seed sh).1.length = 32) :
    createFromSeedFull B (.str (hexEncode sh)) fmt "sr25519" = .ok (seedRootState B sh) := by
  have hpubne : (B.sr_pair_from_seed sh).1.isEmpty = false :=
    isEmpty_false_of_length hpub (by omega)
  simp only [createFromSeedFull, createFromSeedDict_str_sr B sh fmt h256]
  rw [setParams_seedPath B _ sh rfl rfl]
  rw [show ({ seedKw B sh (some 42) with path := none, password := none } : Pre) =
        { path := none, password := none,
          ss58_address := some (B.ss58_encode (B.sr_pair_from_seed sh).1 (some 42)),
          public_key := some (.bytes (B.sr_pair_from_seed sh).1),
          private_key := some (.bytes (B.sr_pair_from_seed sh).2),
          ss58_format := some 42, seed_hex := some (.bytes sh), mnemonic := none,
          crypto_type := "sr25519" } from rfl]
  rw [finalize_srBytes B _ _ _ _ _ _ _ _ _ (by simp [seedKw, truthyBS_some_bytes, hpubne])
    hpriv hpub]
  by_cases he : truthyS (some (B.ss58_encode (B.sr_pair_from_seed sh).1 (some 42))) = true <;>
    simp [he, seedRootState]

/-- `create_from_seed(hex_seed, fmt, 'ed25519', return_dict=False)` also
succeeds — and also yields the sr25519 root of the seed, because the
`set_params` re-dispatch uses its `crypto_type='sr25519'` default and
overwrites the ed25519 material (needing only a truthy ed25519 public key
for the line 186 check). -/
theorem createFromSeedFull_ed (B : Backend) (sh : Bytes) (fmt : Option Nat)
    (h256 : ∀ x ∈ sh, x < 256)
    (hpriv : (B.sr_pair_from_seed sh).2.length = 64)
    (hpub : (B.sr_pair_from_seed sh).1.length = 32)
    (hedpub : (B.ed_from_seed sh).2 ≠ []) :
    createFromSeedFull B (.str (hexEncode sh)) fmt "ed25519" = .ok (seedRootState B sh) := by
  have hedne : (B.ed_from_seed sh).2.isEmpty = false := by
    cases hed : (B.ed_from_seed sh).2 with
    | nil => exact absurd hed hedpub
    | cons a as => rfl
  simp only [createFromSeedFull, createFromSeedDict_str_ed B sh fmt h256]
  rw [setParams_seedPath B _ sh rfl rfl]
  rw [show ({ seedKw B sh (some 42) with path := none, password := none } : Pre) =
        { path := none, password := none,
          ss58_address := some (B.ss58_encode (B.sr_pair_from_seed sh).1 (some 42)),
          public_key := some (.bytes (B.sr_pair_from_seed sh).1),
          private_key := some (.bytes (B.sr_pair_from_seed sh).2),
          ss58_format := some 42, seed_hex := some (.bytes sh), mnemonic := none,
          crypto_type := "sr25519" } from rfl]
  rw [finalize_srBytes B _ _ _ _ _ _ _ _ _
    (by simp [edKw, truthyBS_some_bytes, hedne]) hpriv hpub]
  by_cases he : truthyS (some (B.ss58_encode (B.sr_pair_from_seed sh).1 (some 42))) = true <;>
    simp [he, seedRootState]

/-- `create_from_mnemonic(m, fmt, 'sr25519', return_dict=False)` yields
the sr25519 root of the bip39 mini secret, with the mnemonic recorded by
the line 308 post-construction assignment. -/
theorem createFromMnemonicFull_sr (B : Backend) (m : String) (fmt : Option Nat)
    (h256 : ∀ x ∈ B.bip39_to_mini_secret m "" "en", x < 256)
    (hpriv : (B.sr_pair_from_seed (B.bip39_to_mini_secret m "" "en")).2.length = 64)
    (hpub : (B.sr_pair_from_seed (B.bip39_to_mini_secret m "" "en")).1.length = 32) :
    createFromMnemonicFull B m fmt "sr25519" "en" =
      .ok { seedRootState B (B.bip39_to_mini_secret m "" "en") with mnemonic := some m } := by
  simp only [createFromMnemonicFull]
  rw [if_neg (by decide : ¬("sr25519" : String) = "ecdsa")]
  rw [createFromSeedFull_sr B _ fmt h256 hpriv hpub]

/-- `create_from_mnemonic(m, fmt, 'ed25519', return_dict=False)` also
yields the sr25519 root of the mini secret (the requested scheme is lost
in the `set_params` re-dispatch). -/
theorem createFromMnemonicFull_ed (B : Backend) (m : String) (fmt : Option Nat)
    (h256 : ∀ x ∈ B.bip39_to_mini_secret m "" "en", x < 256)
    (hpriv : (B.sr_pair_from_seed (B.bip39_to_mini_secret m "" "en")).2.length = 64)
    (hpub : (B.sr_pair_from_seed (B.bip39_to_mini_secret m "" "en")).1.length = 32)
    (hedpub : (B.ed_from_seed (B.bip39_to_mini_secret m "" "en")).2 ≠ []) :
    createFromMnemonicFull B m fmt "ed25519" "en" =
      .ok { seedRootState B (B.bip39_to_mini_secret m "" "en") with mnemonic := some m } := by
  simp only [createFromMnemonicFull]
  rw [if_neg (by decide : ¬("ed25519" : String) = "ecdsa")]
  rw [createFromSeedFull_ed B _ fmt h256 hpriv hpub hedpub]

/-- Parsing the normalized `//Alice` SURI yields the development phrase,
the one-junction path and no password. -/
theorem parseSuri_alice :
    parseSuri (normalizeSuri "//Alice") = .ok (DEV_PHRASE, "//Alice", none) := by
  decide

/-- The junctions of `//Alice`: a single hard junction over the chain
code of `Alice`. -/
theorem extractJunctions_alice (B : Backend) :
    extractJunctions B "//Alice" = .ok [⟨true, B.chain_code_of "Alice"⟩] := rfl

/-- The bytes of a present bytes field. -/
theorem asBytes_some_bytes (b : Bytes) : asBytes (some (.bytes b)) = b := rfl

/-- C2 (amended): `create_from_uri('//Alice', 'sr25519')` — the direct
call, with its `return_dict=False` default — succeeds and yields the
hard-derived child of the development phrase: the parsed junctions are
folded in order over the parent key material through the hard-derivation
backend, and the resulting public key and address are pure functions of
the backend, hence identical across runs.  The amendment the claim
needs: constructing through `Keypair(uri='//Alice')` instead calls
`create_from_uri` with `return_dict=True`, which returns before the fold
(lines 418-422), yielding the underived dev-phrase root — see the
counterexample. -/
theorem C2_uri_alice_hard_derived_child (B : Backend)
    (h256 : ∀ x ∈ devSeed B, x < 256)
    (hpriv : (devPair B).2.length = 64)
    (hpub : (devPair B).1.length = 32)
    (hcpub : (aliceChild B).1.length = 32)
    (hcpriv : (aliceChild B).2.length = 64) :
    createFromUriFull B "//Alice" (some 42) "sr25519" "en" =
      .ok { path := none, password := none,
            ss58_address := some (B.ss58_encode (aliceChild B).1 (some 42)),
            public_key := (aliceChild B).1,
            private_key := some (.bytes (aliceChild B).2),
            ss58_format := some 42, seed_hex := none, mnemonic := none,
            derive_path := none, crypto_type := "sr25519" } := by
  have hchild : truthyBS (some (.bytes (aliceChild B).1)) = true := by
    simp [truthyBS_some_bytes, isEmpty_false_of_length hcpub]
  simp only [aliceChild, devPair, devSeed] at hchild hcpriv hcpub
  simp only [createFromUriFull, parseSuri_alice,
    createFromMnemonicFull_sr B DEV_PHRASE (some 42) h256 hpriv hpub,
    extractJunctions_alice, seedRootState, asBytes_some_bytes,
    truthyS_none, Bool.false_eq_true, if_false,
    if_neg (by decide : ¬(("sr25519" : String) ≠ "sr25519")),
    if_pos (by decide : ("//Alice" : String) ≠ "")]
  rw [if_neg (by decide : ¬("sr25519" : String) = "ecdsa")]
  rw [setParams_direct B _ rfl rfl rfl rfl (by simp [noProvenance])]
  simp only [directPre]
  rw [finalize_srBytes B _ _ _ _ _ _ _ _ _ hchild hcpriv hcpub]
  simp [truthyS_none, aliceChild, devPair, devSeed]

/-- Line 175 never touches the private key. -/
theorem step175_private (B : Backend) (pre : Pre) :
    (step175 B pre).private_key = pre.private_key := by
  unfold step175; split <;> rfl

/-- Line 175 never touches the scheme tag. -/
theorem step175_crypto (B : Backend) (pre : Pre) :
    (step175 B pre).crypto_type = pre.crypto_type := by
  unfold step175; split <;> rfl

/-- Line 175 is skipped when the public key is already truthy. -/
theorem step175_skip (B : Backend) (pre : Pre) (h : truthyBS pre.public_key = true) :
    step175 B pre = pre := by
  unfold step175
  rw [if_neg]
  simp [h]

/-- Lines 178-192 succeed only with the scheme tag preserved and, for
sr25519, only with a 64-byte private key (when one is truthily present). -/
theorem step178_ok (B : Backend) (pp : Option BS) (q pre2 : Pre)
    (h : step178 B pp q = .ok pre2) :
    pre2.crypto_type = q.crypto_type ∧
    (q.crypto_type = "sr25519" → truthyBS pre2.private_key = true →
      ∃ b, pre2.private_key = some (.bytes b) ∧ b.length = 64) := by
  cases hq : q.private_key with
  | none =>
    simp only [step178, hq] at h
    cases h
    refine ⟨rfl, fun _ htr => ?_⟩
    rw [hq, truthyBS_none] at htr
    cases htr
  | some pv =>
    simp only [step178, hq] at h
    by_cases htr : bsTruthy pv = false
    · rw [if_pos htr] at h
      cases h
      refine ⟨rfl, fun _ htr2 => ?_⟩
      rw [hq, truthyBS_some, htr] at htr2
      cases htr2
    · rw [if_neg htr] at h
      cases hbs : bsToBytes0x pv with
      | none => rw [hbs] at h; cases h
      | some priv =>
        simp only [hbs] at h
        by_cases hct : q.crypto_type = "sr25519"
        · rw [if_pos hct] at h
          by_cases hlen : priv.length = 64
          · rw [if_neg (by simpa using hlen)] at h
            by_cases hpp : truthyBS pp = false
            · rw [if_pos hpp] at h
              cases h
              exact ⟨rfl, fun _ _ => ⟨priv, rfl, hlen⟩⟩
            · rw [if_neg hpp] at h
              cases h
              exact ⟨rfl, fun _ _ => ⟨priv, rfl, hlen⟩⟩
          · rw [if_pos (by simpa using hlen)] at h
            cases h
        · rw [if_neg hct] at h
          by_cases hec : q.crypto_type = "ecdsa"
          · rw [if_pos hec] at h
            cases h
            exact ⟨rfl, fun hsr _ => absurd hsr hct⟩
          · rw [if_neg hec] at h
            cases h
            exact ⟨rfl, fun hsr _ => absurd hsr hct⟩

/-- Lines 200-208 succeed only when the public key has the scheme's
exact length. -/
theorem step200_ok (B : Backend) (q : Pre) (pub : Bytes) (r : Bytes × Option String)
    (h : step200 B q pub = .ok r) :
    r.1 = pub ∧ (q.crypto_type = "ecdsa" → pub.length = 20) ∧
      (q.crypto_type ≠ "ecdsa" → pub.length = 32) := by
  unfold step200 at h
  by_cases hct : q.crypto_type = "ecdsa"
  · rw [if_pos hct] at h
    by_cases hl : pub.length = 20
    · rw [if_neg (by simpa using hl)] at h
      cases h
      exact ⟨rfl, fun _ => hl, fun hne => absurd hct hne⟩
    · rw [if_pos (by simpa using hl)] at h
      cases h
  · rw [if_neg hct] at h
    by_cases hl : pub.length = 32
    · rw [if_neg (by simpa using hl)] at h
      by_cases ha : truthyS q.ss58_address = true
      · rw [if_pos ha] at h
        cases h
        exact ⟨rfl, fun hc => absurd hc hct, fun _ => hl⟩
      · rw [if_neg ha] at h
        cases h
        exact ⟨rfl, fun hc => absurd hc hct, fun _ => hl⟩
    · rw [if_pos (by simpa using hl)] at h
      cases h

/-- A successful run of the validation tail of `set_params` establishes
the byte-length invariants of the constructed keypair. -/
theorem finalize_ok_invariants (B : Backend) (pp : Option BS) (pre : Pre)
    (st : KeypairState) (h : finalize B pp pre = .ok st) :
    (st.crypto_type ≠ "ecdsa" → st.public_key.length = 32) ∧
    (st.crypto_type = "ecdsa" → st.public_key.length = 20) ∧
    (st.crypto_type = "sr25519" → truthyBS st.private_key = true →
      ∃ b, st.private_key = some (.bytes b) ∧ b.length = 64) := by
  simp only [finalize] at h
  cases h178 : step178 B pp (step175 B pre) with
  | error e => simp only [h178] at h; cases h
  | ok pre2 =>
    simp only [h178] at h
    cases h194 : step194 pre2 with
    | error e => simp only [h194] at h; cases h
    | ok pub =>
      simp only [h194] at h
      cases h200 : step200 B pre2 pub with
      | error e => simp only [h200] at h; cases h
      | ok pa =>
        simp only [h200] at h
        cases h
        obtain ⟨hr1, hr2, hr3⟩ := step200_ok B pre2 pub pa h200
        obtain ⟨hc, hpriv⟩ := step178_ok B pp (step175 B pre) pre2 h178
        subst hr1
        exact ⟨fun hne => hr3 hne, fun hec => hr2 hec,
          fun hsr htr => hpriv (hc ▸ hsr) htr⟩

/-- Every successful `set_params` run goes through the validation tail,
so every constructed keypair satisfies the length invariants. -/
theorem setParams_ok_invariants (B : Backend) (p : Params) (st : KeypairState)
    (h : setParams B p = .ok st) :
    (st.crypto_type ≠ "ecdsa" → st.public_key.length = 32) ∧
    (st.crypto_type = "ecdsa" → st.public_key.length = 20) ∧
    (st.crypto_type = "sr25519" → truthyBS st.private_key = true →
      ∃ b, st.private_key = some (.bytes b) ∧ b.length = 64) := by
  simp only [setParams] at h
  split at h
  · split at h
    · cases h
    · exact finalize_ok_invariants _ _ _ _ h
  · split at h
    · split at h
      · cases h
      · exact finalize_ok_invariants _ _ _ _ h
    · split at h
      · split at h
        · cases h
        · exact finalize_ok_invariants _ _ _ _ h
      · exact finalize_ok_invariants _ _ _ _ h

/-- Lines 183-185: a truthy sr25519 private key of the wrong length is a
fatal construction error. -/
theorem step178_err_sr (B : Backend) (pp : Option BS) (q : Pre) (sb : Bytes)
    (hct : q.crypto_type = "sr25519") (hpk : q.private_key = some (.bytes sb))
    (hne : sb ≠ []) (hlen : sb.length ≠ 64) :
    step178 B pp q = .error (.ValueError "Secret key should be 64 bytes long") := by
  have htr : bsTruthy (BS.bytes sb) = true := by
    simp [bsTruthy, hne]
  simp only [step178, hpk, htr, Bool.true_eq_false, if_false, bsToBytes0x]
  rw [if_pos hct, if_pos hlen]

/-- Lines 178-192 are a no-op without a private key. -/
theorem step178_none (B : Backend) (pp : Option BS) (q : Pre)
    (h : q.private_key = none) : step178 B pp q = .ok q := by
  simp only [step178, h]

/-- Line 194-198 on a truthy bytes public key. -/
theorem step194_bytes (q : Pre) (pb : Bytes) (h : q.public_key = some (.bytes pb))
    (hne : pb ≠ []) : step194 q = .ok pb := by
  have htr : bsTruthy (BS.bytes pb) = true := by simp [bsTruthy, hne]
  simp only [step194, h, htr, Bool.true_eq_false, if_false, bsToBytes0x]

/-- Line 204-205: a non-ecdsa public key that is not 32 bytes is fatal. -/
theorem step200_err32 (B : Backend) (q : Pre) (pub : Bytes)
    (hct : q.crypto_type ≠ "ecdsa") (hlen : pub.length ≠ 32) :
    step200 B q pub = .error (.ValueError "Public key should be 32 bytes long") := by
  simp only [step200]
  rw [if_neg hct, if_pos hlen]

/-- Line 201-202: an ecdsa public key that is not 20 bytes is fatal. -/
theorem step200_err20 (B : Backend) (q : Pre) (pub : Bytes)
    (hct : q.crypto_type = "ecdsa") (hlen : pub.length ≠ 20) :
    step200 B q pub = .error (.ValueError "Public key should be 20 bytes long") := by
  simp only [step200]
  rw [if_pos hct, if_pos hlen]

/-- A direct construction with an sr25519 private key of the wrong
length fails with the line 185 error. -/
theorem setParams_err_srPriv (B : Backend) (p : Params) (sb : Bytes)
    (hseed : p.seed = none) (hsh : p.seed_hex = none) (hmn : p.mnemonic = none)
    (huri : p.uri = none) (hct : p.crypto_type = "sr25519")
    (hpk : p.private_key = some (.bytes sb)) (hne : sb ≠ []) (hlen : sb.length ≠ 64) :
    setParams B p = .error (.ValueError "Secret key should be 64 bytes long") := by
  rw [setParams_direct B p hseed hsh hmn huri (by simp [noProvenance, hpk])]
  simp only [finalize]
  rw [step178_err_sr B p.public_key _ sb (by rw [step175_crypto]; exact hct)
    (by rw [step175_private]; exact hpk) hne hlen]

/-- A direct non-ecdsa construction with a supplied public key of the
wrong length (and no private key) fails with the line 205 error. -/
theorem setParams_err_pub32 (B : Backend) (p : Params) (pb : Bytes)
    (hseed : p.seed = none) (hsh : p.seed_hex = none) (hmn : p.mnemonic = none)
    (huri : p.uri = none) (hct : p.crypto_type ≠ "ecdsa")
    (hpk : p.private_key = none) (hpub : p.public_key = some (.bytes pb))
    (hne : pb ≠ []) (hlen : pb.length ≠ 32) :
    setParams B p = .error (.ValueError "Public key should be 32 bytes long") := by
  rw [setParams_direct B p hseed hsh hmn huri (by simp [noProvenance, hpub])]
  have htrP : truthyBS (directPre p).public_key = true := by
    simp [directPre, hpub, truthyBS_some_bytes, hne]
  simp only [finalize, step175_skip B (directPre p) htrP,
    step178_none B p.public_key (directPre p) hpk,
    step194_bytes (directPre p) pb hpub hne,
    step200_err32 B (directPre p) pb hct hlen]

/-- A direct ecdsa construction with a supplied public key of the wrong
length (and no private key) fails with the line 202 error. -/
theorem setParams_err_pub20 (B : Backend) (p : Params) (pb : Bytes)
    (hseed : p.seed = none) (hsh : p.seed_hex = none) (hmn : p.mnemonic = none)
    (huri : p.uri = none) (hct : p.crypto_type = "ecdsa")
    (hpk : p.private_key = none) (hpub : p.public_key = some (.bytes pb))
    (hne : pb ≠ []) (hlen : pb.length ≠ 20) :
    setParams B p = .error (.ValueError "Public key should be 20 bytes long") := by
  rw [setParams_direct B p hseed hsh hmn huri (by simp [noProvenance, hpub])]
  have htrP : truthyBS (directPre p).public_key = true := by
    simp [directPre, hpub, truthyBS_some_bytes, hne]
  simp only [finalize, step175_skip B (directPre p) htrP,
    step178_none B p.public_key (directPre p) hpk,
    step194_bytes (directPre p) pb hpub hne,
    step200_err20 B (directPre p) pb hct hlen]

end Lemmas

section Claims

/-- C10: for every storage path and stored record, `is_encrypted` returns
`None` — the bare `return` of line 776 discards the `encrypted` flag the
function just read, whether or not the record was saved with a
password. -/
theorem C10_is_encrypted_returns_none (getJson : Option String → StateRecord)
    (kp : KeypairState) (path : Option String) (state : Option StateRecord) :
    is_encrypted getJson kp path state = none := rfl

/-- C5: for every keypair, message and signature, under each of the three
schemes, `verify` returns a boolean (never raises), and that boolean is
true exactly when the backend accepts the message directly or — after the
single uniform retry of lines 661-664 — accepts the message re-framed as
`b"<Bytes>" + message + b"</Bytes>"`. -/
theorem C5_verify_wrap_retry (B : Backend) (kp : KeypairState) (d s : Bytes) :
    verifyK B kp (.bytes d) (.bytes s) "sr25519" =
      .ok (B.sr_verify s d kp.public_key || B.sr_verify s (wrapBytes d) kp.public_key) ∧
    verifyK B kp (.bytes d) (.bytes s) "ed25519" =
      .ok (B.ed_verify s d kp.public_key || B.ed_verify s (wrapBytes d) kp.public_key) ∧
    verifyK B kp (.bytes d) (.bytes s) "ecdsa" =
      .ok (B.ecdsa_verify s d kp.public_key ||
        B.ecdsa_verify s (wrapBytes d) kp.public_key) := by
  refine ⟨?_, ?_, ?_⟩
  · cases hv : B.sr_verify s d kp.public_key <;> simp [verifyK, normalizeData, hv]
  · cases hv : B.ed_verify s d kp.public_key <;> simp [verifyK, normalizeData, hv]
  · cases hv : B.ecdsa_verify s d kp.public_key <;> simp [verifyK, normalizeData, hv]

/-- C4: `sign` and `verify` dispatch on their `crypto_type` argument
(whose parameter default is the sr25519 scheme) and never consult the
keypair's own stored scheme tag; in particular a keypair constructed with
the ed25519 scheme, signing without an explicit `crypto_type`, drives the
sr25519 signing backend over the ed25519 key material. -/
theorem C4_dispatch_on_argument (B : Backend) (kp : KeypairState)
    (c1 c2 ct : String) (d : DataInput) (s : BS) (sk m : Bytes) :
    (signK B { kp with crypto_type := c1 } d ct =
      signK B { kp with crypto_type := c2 } d ct) ∧
    (verifyK B { kp with crypto_type := c1 } d s ct =
      verifyK B { kp with crypto_type := c2 } d s ct) ∧
    (signDefaultK B kp d = signK B kp d "sr25519") ∧
    (kp.crypto_type = "ed25519" → kp.private_key = some (.bytes sk) → sk ≠ [] →
      signDefaultK B kp (.bytes m) = .ok (.sr (B.sr_sign kp.public_key sk m))) := by
  refine ⟨rfl, rfl, rfl, fun _ hsk hne => ?_⟩
  simp [signDefaultK, signK, normalizeData, privForSigning, hsk, hne]

/-- C4 witness: the concrete ed25519-tagged keypair signs through the
sr25519 backend when `crypto_type` is left to its default. -/
theorem C4_dispatch_on_argument_witness :
    signDefaultK testBackend testKpEd (.bytes [1, 2]) = .ok (.sr (77 :: [1, 2])) := by
  have h := (C4_dispatch_on_argument testBackend testKpEd "a" "b" "c" (.bytes [1, 2])
    (.bytes []) (List.replicate 64 2) [1, 2]).2.2.2 rfl rfl (by decide)
  exact h

/-- C1: two calls to `encrypt_message` that omit the nonce argument use
the same nonce — the value of the `secrets.token_bytes(24)` default
expression, which Python evaluates once at method-definition time and
caches — so the nonces are not independently fresh.  (The spec states the
opposite contract and flags the source's default-argument nonce as the
bug to not replicate, section 9.) -/
theorem C1_default_nonce_reused (B : Backend) (kp : KeypairState) (m1 m2 : BS)
    (rpk1 rpk2 : Bytes) (n1 c1 n2 c2 : Bytes)
    (hct : kp.crypto_type = "ed25519") (hpk : truthyBS kp.private_key = true)
    (h1 : encrypt_message B kp m1 rpk1 none = .ok (n1, c1))
    (h2 : encrypt_message B kp m2 rpk2 none = .ok (n2, c2)) :
    n1 = n2 ∧ n1 = B.token_bytes24 := by
  simp [encrypt_message, hct, hpk] at h1 h2
  exact ⟨h1.1.symm.trans h2.1, h1.1.symm⟩

/-- C1 witness: two concrete nonce-omitting calls on an ed25519 keypair
share the cached default nonce. -/
theorem C1_default_nonce_reused_witness :
    encrypt_message testBackend testKpEd (.bytes [1]) (List.replicate 32 3) none =
      .ok (List.replicate 24 13, 99 :: [1]) ∧
    encrypt_message testBackend testKpEd (.bytes [2]) (List.replicate 32 3) none =
      .ok (List.replicate 24 13, 99 :: [2]) ∧
    List.replicate 24 13 = testBackend.token_bytes24 := by
  refine ⟨by decide, by decide, ?_⟩
  exact (C1_default_nonce_reused testBackend testKpEd (.bytes [1]) (.bytes [2])
    (List.replicate 32 3) (List.replicate 32 3) (List.replicate 24 13) (99 :: [1])
    (List.replicate 24 13) (99 :: [2]) rfl (by decide) (by decide) (by decide)).2

/-- C6: a keypair holding only public material fails `sign` with the
no-private-key configuration error (the spec's `NoPrivateKey`) for every
message and scheme argument, while `verify` still runs and returns true
for a signature produced over that message by the holder of the
corresponding private key (any signature the scheme backend accepts for
that public key). -/
theorem C6_verify_only_keypair (B : Backend) (kp kpH : KeypairState)
    (d sig : Bytes)
    (hnopk : truthyBS kp.private_key = false)
    (hsame : kpH.public_key = kp.public_key)
    (_hsig : signK B kpH (.bytes d) "sr25519" = .ok (.sr sig))
    (hbackend : B.sr_verify sig d kpH.public_key = true) :
    (∀ dm : Bytes, ∀ ct2 : String, signK B kp (.bytes dm) ct2 =
      .error (.ConfigurationError "No private key set to create signatures")) ∧
    verifyK B kp (.bytes d) (.bytes sig) "sr25519" = .ok true := by
  constructor
  · intro dm ct2
    have hpf : privForSigning kp =
        .error (.ConfigurationError "No private key set to create signatures") := by
      cases hpk : kp.private_key with
      | none => simp [privForSigning, hpk]
      | some pv =>
        rw [hpk, truthyBS_some] at hnopk
        cases pv with
        | bytes b =>
          have hb : b.isEmpty = true := by
            simpa [bsTruthy] using hnopk
          simp [privForSigning, hpk, hb]
        | str st =>
          have hs : strTruthy st = false := by
            simpa [bsTruthy] using hnopk
          simp [privForSigning, hpk, hs]
    simp [signK, normalizeData, hpf]
  · have hb : B.sr_verify sig d kp.public_key = true := hsame ▸ hbackend
    simp [verifyK, normalizeData, hb]

/-- C6 witness: the concrete verify-only keypair rejects signing and
accepts the holder's signature. -/
theorem C6_verify_only_keypair_witness :
    signK testBackend testKpVerifyOnly (.bytes [9]) "ecdsa" =
      .error (.ConfigurationError "No private key set to create signatures") ∧
    verifyK testBackend testKpVerifyOnly (.bytes [1, 2]) (.bytes (77 :: [1, 2]))
      "sr25519" = .ok true := by
  have h := C6_verify_only_keypair testBackend testKpVerifyOnly testKpSr
    [1, 2] (77 :: [1, 2]) (by decide) rfl (by decide) (by decide)
  exact ⟨h.1 [9] "ecdsa", h.2⟩

/-- C3 (amended): `sign`, `verify` and `export_to_encrypted_json` leave
the keypair's attribute dictionary unchanged (their bodies contain no
attribute assignment), but `state_dict` — and hence `save`, which calls
it — aliases `self.__dict__` and replaces every bytes-typed field in
place with its hex-string form, changing those fields' values and
types. -/
theorem C3_frame_amended (B : Backend) (kp : KeypairState) (data : DataInput)
    (sig : BS) (ct : String) (pw : Option String) (passph : String)
    (name : Option String) (now : Nat) :
    dictAfterSign B kp data ct = dictOf kp ∧
    dictAfterVerify B kp data sig ct = dictOf kp ∧
    dictAfterExport B kp passph name now = dictOf kp ∧
    dictAfterStateDict B kp pw = hexifyDict (dictOf kp) := by
  refine ⟨rfl, rfl, rfl, ?_⟩
  cases pw <;> rfl

/-- C3 counterexample: on a concrete constructed keypair, one
`state_dict` call changes the `public_key` attribute from bytes to a hex
string, so the fields are not unchanged in value and type. -/
theorem C3_state_dict_mutates_cex :
    setParams testBackend
      { public_key := some (.bytes (List.replicate 32 1)),
        private_key := some (.bytes (List.replicate 64 2)) } = .ok testKpSr ∧
    dictAfterStateDict testBackend testKpSr none ≠ dictOf testKpSr := by
  exact ⟨by decide, by decide⟩

/-- C2 witness: over the concrete backend, the direct
`create_from_uri('//Alice')` call yields the hard-derived child key
material. -/
theorem C2_uri_alice_hard_derived_child_witness :
    createFromUriFull testBackend "//Alice" (some 42) "sr25519" "en" =
      .ok { path := none, password := none, ss58_address := some "5TESTADDR",
            public_key := List.replicate 32 9,
            private_key := some (.bytes (List.replicate 64 9)),
            ss58_format := some 42, seed_hex := none, mnemonic := none,
            derive_path := none, crypto_type := "sr25519" } := by
  have h := C2_uri_alice_hard_derived_child testBackend (by decide) (by decide)
    (by decide) (by decide) (by decide)
  exact h

/-- C2 counterexample: constructing through the `Keypair` constructor
(`set_params`, which passes `return_dict=True`) succeeds but returns the
dev-phrase root public key, not the hard-derived child: the junctions are
not folded on that path. -/
theorem C2_constructor_skips_derivation_cex :
    Except.map (fun st : KeypairState => st.public_key)
        (setParams testBackend { uri := some "//Alice" }) =
      .ok (List.replicate 32 1) ∧
    (aliceChild testBackend).1 = List.replicate 32 9 ∧
    (List.replicate 32 1 : Bytes) ≠ List.replicate 32 9 := by
  exact ⟨by decide, by decide, by decide⟩

/-- C9 (amended): a URI whose path holds at least one junction, given to
the direct `create_from_uri` call (`return_dict=False`) with the ed25519
scheme — the only scheme besides sr25519 and ecdsa — raises the
`NotImplementedError` of line 429 (the spec's `UnsupportedDerivation`)
and produces no keypair.  The amendment the claim needs: through the
`Keypair(uri=..)` constructor, `create_from_uri` is called with
`return_dict=True` (and the constructor's own scheme default), returns
before the check, and silently yields a keypair — see the
counterexample. -/
theorem C9_unsupported_derivation (B : Backend) (suri phrase path : String)
    (pw : Option String) (fmt : Option Nat)
    (hparse : parseSuri (normalizeSuri suri) = .ok (phrase, path, pw))
    (hpath : path ≠ "") (hpw : truthyS pw = false)
    (h256 : ∀ x ∈ B.bip39_to_mini_secret phrase "" "en", x < 256)
    (hpriv : (B.sr_pair_from_seed (B.bip39_to_mini_secret phrase "" "en")).2.length = 64)
    (hpub : (B.sr_pair_from_seed (B.bip39_to_mini_secret phrase "" "en")).1.length = 32)
    (hedpub : (B.ed_from_seed (B.bip39_to_mini_secret phrase "" "en")).2 ≠ []) :
    createFromUriFull B suri fmt "ed25519" "en" =
      .error (.NotImplementedError
        "Derivation paths for this crypto type not supported") := by
  simp only [createFromUriFull, hparse]
  rw [if_neg (by decide : ¬("ed25519" : String) = "ecdsa")]
  rw [if_neg (by simp [hpw] : ¬truthyS pw = true)]
  simp only [createFromMnemonicFull_ed B phrase fmt h256 hpriv hpub hedpub]
  rw [if_pos hpath]
  rw [if_pos (by decide : ("ed25519" : String) ≠ "sr25519")]

/-- C9 witness: the direct ed25519 call on `//Alice` raises the
capability error. -/
theorem C9_unsupported_derivation_witness :
    createFromUriFull testBackend "//Alice" (some 42) "ed25519" "en" =
      .error (.NotImplementedError
        "Derivation paths for this crypto type not supported") := by
  exact C9_unsupported_derivation testBackend "//Alice" DEV_PHRASE "//Alice" none
    (some 42) parseSuri_alice (by decide) (by decide) (by decide) (by decide)
    (by decide) (by decide)

/-- C9 counterexample: the `Keypair(uri='//Alice', crypto_type='ed25519')`
constructor path does not fail — it produces a keypair (with the
dispatch-default sr25519 scheme, junctions ignored). -/
theorem C9_constructor_ignores_path_cex :
    setParams testBackend { uri := some "//Alice", crypto_type := "ed25519" } =
      .ok { path := none, password := none, ss58_address := some "5TESTADDR",
            public_key := List.replicate 32 1,
            private_key := some (.bytes (List.replicate 64 2)),
            ss58_format := some 42,
            seed_hex := some (.bytes (List.replicate 32 7)),
            mnemonic := some DEV_PHRASE, derive_path := none,
            crypto_type := "sr25519" } := by
  decide

/-- C7: for an sr25519 keypair with a private key, importing the
encrypted JSON export made with a passphrase reproduces the original
public key and address (under the collaborator contracts: the
encode/decode pair round-trips, the converted secret is 64 bytes, and the
ss58 codec inverts itself through `get_ss58_format`); importing the same
record with a different passphrase fails with the decryption error. -/
theorem C7_encrypted_json_roundtrip (B : Backend) (kp : KeypairState)
    (pass pass2 : String) (name : Option String) (now : Nat) (j : EncryptedJson)
    (sk : Bytes) (addr : String)
    (hct : kp.crypto_type = "sr25519")
    (hsk : kp.private_key = some (.bytes sk))
    (haddrk : kp.ss58_address = some addr)
    (hpublen : kp.public_key.length = 32)
    (hconvlen : (B.convert_secret_to_ed25519 sk).length = 64)
    (hexp : export_to_encrypted_json B kp pass name now = .ok j)
    (hdec : B.decode_pair j.encoded pass =
      .ok (B.convert_secret_to_ed25519 sk, kp.public_key))
    (henc : B.ss58_encode kp.public_key (some (B.get_ss58_format addr)) = addr)
    (hbad : B.decode_pair j.encoded pass2 = .error .DecryptionFailed) :
    create_from_encrypted_json B j pass none =
      .ok { path := none, password := none, ss58_address := some addr,
            public_key := kp.public_key,
            private_key := some (.bytes (B.convert_secret_to_ed25519 sk)),
            ss58_format := some (B.get_ss58_format addr), seed_hex := none,
            mnemonic := none, derive_path := none, crypto_type := "sr25519" } ∧
    create_from_encrypted_json B j pass2 none = .error .DecryptionFailed := by
  simp only [export_to_encrypted_json, hct] at hexp
  rw [if_neg (by decide : ¬("sr25519" : String) ≠ "sr25519")] at hexp
  have hj : exportRecord B kp pass name now = j := by
    simpa [exportRecord] using hexp
  subst hj
  simp only [exportRecord, hsk, asBytes_some_bytes] at hdec hbad
  constructor
  · simp only [create_from_encrypted_json, exportRecord, hsk,
      asBytes_some_bytes, haddrk, hdec]
    rw [show (["pkcs8", "sr25519"].contains "sr25519") = true from by decide]
    simp only [if_true]
    rw [setParams_direct B _ rfl rfl rfl rfl (by simp [noProvenance])]
    simp only [directPre]
    rw [finalize_srBytes B _ _ _ _ _ _ _ _ _
      (by simp [truthyBS_some_bytes, isEmpty_false_of_length hpublen])
      hconvlen hpublen]
    simp [truthyS_none, henc]
  · simp [create_from_encrypted_json, exportRecord, hsk, asBytes_some_bytes, hbad]

/-- C7 witness: a concrete export/import round trip over the test
collaborators reproduces the public key and address, and a wrong
passphrase fails with the decryption error. -/
theorem C7_encrypted_json_roundtrip_witness :
    (∃ j, export_to_encrypted_json testBackend testKpSr "hunter2" none 0 = .ok j ∧
      create_from_encrypted_json testBackend j "hunter2" none =
        .ok { path := none, password := none, ss58_address := some "5TESTADDR",
              public_key := List.replicate 32 1,
              private_key := some (.bytes (List.replicate 64 2)),
              ss58_format := some 42, seed_hex := none, mnemonic := none,
              derive_path := none, crypto_type := "sr25519" } ∧
      create_from_encrypted_json testBackend j "wrong" none =
        .error .DecryptionFailed) := by
  refine ⟨_, rfl, ?_, ?_⟩
  · have h := (C7_encrypted_json_roundtrip testBackend testKpSr "hunter2" "wrong"
      none 0 _ (List.replicate 64 2) "5TESTADDR" rfl rfl rfl (by decide) (by decide)
      rfl (by decide) (by decide) (by decide)).1
    exact h
  · have h := (C7_encrypted_json_roundtrip testBackend testKpSr "hunter2" "wrong"
      none 0 _ (List.replicate 64 2) "5TESTADDR" rfl rfl rfl (by decide) (by decide)
      rfl (by decide) (by decide) (by decide)).2
    exact h

/-- C8: every successfully constructed keypair satisfies its scheme's
byte-length invariants — a 32-byte public key off the ecdsa scheme, a
20-byte public-key field on it, and a 64-byte private key for sr25519
whenever one is truthily present — and a direct construction input
violating these lengths fails with a fatal `ValueError`, producing no
keypair. -/
theorem C8_length_invariants (B : Backend) (p : Params) :
    (∀ st, setParams B p = .ok st →
      (st.crypto_type ≠ "ecdsa" → st.public_key.length = 32) ∧
      (st.crypto_type = "ecdsa" → st.public_key.length = 20) ∧
      (st.crypto_type = "sr25519" → truthyBS st.private_key = true →
        ∃ b, st.private_key = some (.bytes b) ∧ b.length = 64)) ∧
    (∀ sb, p.seed = none → p.seed_hex = none → p.mnemonic = none → p.uri = none →
      p.crypto_type = "sr25519" → p.private_key = some (.bytes sb) → sb ≠ [] →
      sb.length ≠ 64 →
      setParams B p = .error (.ValueError "Secret key should be 64 bytes long")) ∧
    (∀ pb, p.seed = none → p.seed_hex = none → p.mnemonic = none → p.uri = none →
      p.crypto_type ≠ "ecdsa" → p.private_key = none →
      p.public_key = some (.bytes pb) → pb ≠ [] → pb.length ≠ 32 →
      setParams B p = .error (.ValueError "Public key should be 32 bytes long")) ∧
    (∀ pb, p.seed = none → p.seed_hex = none → p.mnemonic = none → p.uri = none →
      p.crypto_type = "ecdsa" → p.private_key = none →
      p.public_key = some (.bytes pb) → pb ≠ [] → pb.length ≠ 20 →
      setParams B p = .error (.ValueError "Public key should be 20 bytes long")) :=
  ⟨fun st h => setParams_ok_invariants B p st h,
   fun sb h1 h2 h3 h4 h5 h6 h7 h8 =>
     setParams_err_srPriv B p sb h1 h2 h3 h4 h5 h6 h7 h8,
   fun pb h1 h2 h3 h4 h5 h6 h7 h8 h9 =>
     setParams_err_pub32 B p pb h1 h2 h3 h4 h5 h6 h7 h8 h9,
   fun pb h1 h2 h3 h4 h5 h6 h7 h8 h9 =>
     setParams_err_pub20 B p pb h1 h2 h3 h4 h5 h6 h7 h8 h9⟩

/-- C8 witness: a concrete in-range construction carries the invariants,
and three concrete out-of-range inputs fail with the exact errors. -/
theorem C8_length_invariants_witness :
    setParams testBackend { public_key := some (.bytes (List.replicate 32 1)) } =
      .ok { path := none, password := none, ss58_address := some "5TESTADDR",
            public_key := List.replicate 32 1, private_key := none,
            ss58_format := none, seed_hex := none, mnemonic := none,
            derive_path := none, crypto_type := "sr25519" } ∧
    (List.replicate 32 1 : Bytes).length = 32 ∧
    setParams testBackend { private_key := some (.bytes [1, 2, 3]) } =
      .error (.ValueError "Secret key should be 64 bytes long") ∧
    setParams testBackend
        { public_key := some (.bytes [1, 2, 3]), crypto_type := "ed25519" } =
      .error (.ValueError "Public key should be 32 bytes long") ∧
    setParams testBackend
        { public_key := some (.bytes [1, 2, 3]), crypto_type := "ecdsa" } =
      .error (.ValueError "Public key should be 20 bytes long") := by
  refine ⟨by decide, ?_, ?_, ?_, ?_⟩
  · exact ((C8_length_invariants testBackend
      { public_key := some (.bytes (List.replicate 32 1)) }).1
      { path := none, password := none, ss58_address := some "5TESTADDR",
        public_key := List.replicate 32 1, private_key := none,
        ss58_format := none, seed_hex := none, mnemonic := none,
        derive_path := none, crypto_type := "sr25519" } (by decide)).1 (by decide)
  · exact (C8_length_invariants testBackend
      { private_key := some (.bytes [1, 2, 3]) }).2.1 [1, 2, 3]
      rfl rfl rfl rfl rfl rfl (by decide) (by decide)
  · exact (C8_length_invariants testBackend
      { public_key := some (.bytes [1, 2, 3]), crypto_type := "ed25519" }).2.2.1
      [1, 2, 3] rfl rfl rfl rfl (by decide) rfl rfl (by decide) (by decide)
  · exact (C8_length_invariants testBackend
      { public_key := some (.bytes [1, 2, 3]), crypto_type := "ecdsa" }).2.2.2
      [1, 2, 3] rfl rfl rfl rfl rfl rfl rfl (by decide) (by decide)

end Claims

end Commune

